import Mathlib

/-!
Verification development for the FWMessaging conversation-orchestration engine.

The Python sources are shallowly embedded as executable Lean definitions:
  * strings are Lean `String`s (scanning helpers work on `List Char`);
  * Python `datetime` values are modelled as integer minutes since the epoch,
    `date` values as integer day numbers, and epoch-second timestamps as `Int`;
  * the configured timezone is modelled as a fixed offset in seconds
    (`datetime.fromtimestamp(ts, tz).date()` comparisons become local-day
    arithmetic with that offset);
  * Python `dict`s are association lists, Python `set`s are lists;
  * `None`-able values are `Option`s; Python truthiness of `str | None`
    (where `Some ""` is falsy) is `optTruthy`;
  * code that can raise an exception returns `Except`.
-/

namespace FWM

/-! ### Generic Python-string helpers -/

/-- Python truthiness of an optional string: `None` and `""` are falsy. -/
def optTruthy : Option String → Bool
  | none => false
  | some s => s ≠ ""

/-- Python `a or b` on optional strings (empty string is falsy). -/
def pyOrS : Option String → Option String → Option String
  | some s, b => if s = "" then b else some s
  | none, b => b

/-- `leadsWith pat l` : `pat` is a leading segment of `l`. -/
def leadsWith : List Char → List Char → Bool
  | [], _ => true
  | _ :: _, [] => false
  | p :: ps, c :: cs => p == c && leadsWith ps cs

/-- `isSubstrList pat l` : `pat` occurs contiguously inside `l`
(Python `pat in l`). -/
def isSubstrList (pat : List Char) : List Char → Bool
  | [] => pat.isEmpty
  | c :: cs => leadsWith pat (c :: cs) || isSubstrList pat cs

/-- Python `pat in s` on strings. -/
def containsSub (s pat : String) : Bool := isSubstrList pat.data s.data

/-- Python `s.startswith(pat)`. -/
def strStarts (s pat : String) : Bool := leadsWith pat.data s.data

/-- Python `s.endswith(pat)`. -/
def strEnds (s pat : String) : Bool := leadsWith pat.data.reverse s.data.reverse

/-- ASCII approximation of the Python regex / `str.strip` whitespace class. -/
def isWsPy (c : Char) : Bool :=
  c == ' ' || c == '\t' || c == '\n' || c == '\r' || c == '\x0b' || c == '\x0c'

/-- ASCII approximation of the regex word-character class `\w`. -/
def isWordPy (c : Char) : Bool := c.isAlphanum || c == '_'

/-- Python `s.strip()` on a character list. -/
def pyStripL (l : List Char) : List Char :=
  ((l.dropWhile isWsPy).reverse.dropWhile isWsPy).reverse

/-- Python `s.strip()`. -/
def pyStrip (s : String) : String := ⟨pyStripL s.data⟩

/-- Python `s.lower()` (ASCII case folding only). -/
def pyLower (s : String) : String := ⟨s.data.map Char.toLower⟩

/-- Python `s.rstrip(".,")`. -/
def rstripDotComma (s : String) : String :=
  ⟨(s.data.reverse.dropWhile (fun c => c == '.' || c == ',')).reverse⟩

/-- Render a natural number in decimal (Python `str(n)` for `n ≥ 0`). -/
def natDigitsAux : Nat → Nat → List Char → List Char
  | 0, _, acc => acc
  | fuel + 1, n, acc =>
    if n < 10 then Char.ofNat (48 + n) :: acc
    else natDigitsAux fuel (n / 10) (Char.ofNat (48 + n % 10) :: acc)

def natToStr (n : Nat) : String := ⟨natDigitsAux (n + 1) n []⟩

/-- Two-digit zero padding, as in `strftime` `%I`/`%M`/`%d`. -/
def pad2 (n : Nat) : String := if n < 10 then "0" ++ natToStr n else natToStr n

/-- Python `repr` of a string without quotes or escapes inside. -/
def pyRepr (s : String) : String := "'" ++ s ++ "'"

/-- Split a character list on the paragraph separator `"\n\n"`
(Python `text.split("\n\n")`, non-overlapping, leftmost first). -/
def splitPar : List Char → List (List Char)
  | [] => [[]]
  | '\n' :: '\n' :: rest => [] :: splitPar rest
  | c :: rest =>
    match splitPar rest with
    | [] => [[c]]
    | h :: t => (c :: h) :: t

/-- Python `text.split()` (split on whitespace runs, no empty fields). -/
def splitWs (l : List Char) : List (List Char) :=
  match l with
  | [] => []
  | c :: cs =>
    if isWsPy c then splitWs cs
    else
      match splitWs cs with
      | [] => [[c]]
      | h :: t =>
        if isWsPy (cs.headD ' ') then [c] :: h :: t else (c :: h) :: t

def takeDigits (l : List Char) : List Char := l.takeWhile Char.isDigit

def dropDigits (l : List Char) : List Char := l.dropWhile Char.isDigit

/-- Numeric value of a digit list (most significant first). -/
def natOfDigits (cs : List Char) : Nat :=
  cs.foldl (fun a c => a * 10 + (c.toNat - 48)) 0

/-- Strip a literal leading segment, returning the remainder. -/
def dropPre : List Char → List Char → Option (List Char)
  | [], l => some l
  | _ :: _, [] => none
  | p :: ps, c :: cs => if p == c then dropPre ps cs else none

/-! ### The pricing regex `(?:Pricing|Precio):\s*\$[0-9]+(?:–[0-9]+)?`

The alternation/star/plus structure of this pattern never needs
backtracking ( `P`, `$`, digits and `–` are not whitespace/digits at the
decision points), so maximal-munch matching is exact. -/

/-- Match `\s*\$[0-9]+(?:–[0-9]+)?` and return the remainder. -/
def matchPriceTail (l : List Char) : Option (List Char) :=
  let l' := l.dropWhile isWsPy
  match l' with
  | '$' :: rest =>
    if (takeDigits rest).isEmpty then none
    else
      match dropDigits rest with
      | '–' :: rest2 =>
        if (takeDigits rest2).isEmpty then some ('–' :: rest2)
        else some (dropDigits rest2)
      | other => some other
  | _ => none

/-- Match the full pricing pattern at the head of `l`; return the remainder. -/
def matchPricingAt (l : List Char) : Option (List Char) :=
  match dropPre "Pricing:".data l with
  | some r => matchPriceTail r
  | none =>
    match dropPre "Precio:".data l with
    | some r => matchPriceTail r
    | none => none

/-- `re.findall` count of the pricing pattern, scanning left to right,
non-overlapping.  The fuel argument (≥ list length) makes the recursion
structural; a match always consumes at least the literal `Pricing:`. -/
def countPricingFuel : Nat → List Char → Nat
  | 0, _ => 0
  | _, [] => 0
  | fuel + 1, c :: cs =>
    match matchPricingAt (c :: cs) with
    | some rest => 1 + countPricingFuel fuel rest
    | none => countPricingFuel fuel cs

/-- `_count_pricing_occurrences` (reply_composer.py, lines 666-674). -/
def countPricing (text : String) : Nat := countPricingFuel text.data.length text.data

/-- `re.search(r"(?:Pricing|Precio):\s*\$", text)` as a Boolean. -/
def searchPricingDollar (text : String) : Bool :=
  go text.data
where
  go : List Char → Bool
    | [] => false
    | c :: cs =>
      (match matchPricingAt0 (c :: cs) with
       | some _ => true
       | none => go cs)
  /-- Match `(?:Pricing|Precio):\s*\$` at the head. -/
  matchPricingAt0 (l : List Char) : Option (List Char) :=
    let core (r : List Char) : Option (List Char) :=
      match r.dropWhile isWsPy with
      | '$' :: rest => some rest
      | _ => none
    match dropPre "Pricing:".data l with
    | some r => core r
    | none =>
      match dropPre "Precio:".data l with
      | some r => core r
      | none => none

/-- `re.sub(r"\s*(?:Pricing|Precio):\s*\$[0-9]+(?:–[0-9]+)?", "", text)`:
remove every (leftmost, non-overlapping) match.  The leading `\s*` is
maximal-munch; the core consumes at least 9 characters, so fuel = length
suffices. -/
def matchWsPricingAt (l : List Char) : Option (List Char) :=
  matchPricingAt (l.dropWhile isWsPy)

def subPricingFuel : Nat → List Char → List Char
  | 0, l => l
  | _, [] => []
  | fuel + 1, c :: cs =>
    match matchWsPricingAt (c :: cs) with
    | some rest => subPricingFuel fuel rest
    | none => c :: subPricingFuel fuel cs

/-- `re.sub(r"\s+", " ", text)`: collapse whitespace runs to single spaces. -/
def collapseWsFuel : Nat → List Char → List Char
  | 0, l => l
  | _, [] => []
  | fuel + 1, c :: cs =>
    if isWsPy c then ' ' :: collapseWsFuel fuel (cs.dropWhile isWsPy)
    else c :: collapseWsFuel fuel cs

/-- Python `text.replace(pat, "")` for a non-empty pattern. -/
def removeAllFuel (pat : List Char) : Nat → List Char → List Char
  | 0, l => l
  | _, [] => []
  | fuel + 1, c :: cs =>
    if leadsWith pat (c :: cs) then
      removeAllFuel pat fuel ((c :: cs).drop pat.length)
    else c :: removeAllFuel pat fuel cs

def removeAll (s pat : String) : String :=
  ⟨removeAllFuel pat.data s.data.length s.data⟩

/-- `re.search(r"Que.*interesa", text)` (no DOTALL: `.` excludes `\n`). -/
def searchQueInteresa (text : String) : Bool :=
  go text.data
where
  go : List Char → Bool
    | [] => false
    | c :: cs =>
      (leadsWith "que".data (c :: cs) &&
        isSubstrList "interesa".data (((c :: cs).drop 3).takeWhile (· ≠ '\n')))
      || go cs

/-! ### Domain entities (src/app/domain/entities) -/

/-- `BookingState` (booking_state.py).  Datetimes are minutes since the epoch,
timestamps are epoch seconds.  The frozen dataclass has *no* `service` field
(the comment in the source notes it was renamed to `service_key`). -/
structure BookingState where
  status : String := "none"
  proposedDate : Option Int := none
  proposedTime : Option Int := none
  serviceKey : Option String := none
  calendarEventId : Option String := none
  proposedDateIso : Option String := none
  proposedTime24h : Option String := none
  proposedSlotStartIso : Option String := none
  timezone : Option String := none
  durationMinutes : Option Int := none
  eventId : Option String := none
  updatedAt : Option Int := none
deriving DecidableEq

/-- `SelectionState` (selection_state.py). -/
structure SelectionState where
  status : String := "none"
  pendingCategory : Option String := none
  selectedServiceKey : Option String := none
  lastServiceMention : Option String := none
  updatedAt : Option Int := none
deriving DecidableEq

/-- `ConversationState` (conversation_state.py). -/
structure ConversationState where
  lastIntent : Option String := none
  awaitingBooking : Bool := false
  lastService : Option String := none
  bookingState : BookingState := {}
  language : Option String := none
  lastSeenAt : Option Int := none
  lastOutboundAt : Option Int := none
  greetedAt : Option Int := none
  selectionState : SelectionState := {}
deriving DecidableEq

/-- `ServiceCatalogEntry` (service_catalog.py). -/
structure ServiceCatalogEntry where
  serviceKey : String
  displayName : String
  category : String
  priceMin : Option Int
  priceMax : Option Int
  durationMinutesMin : Int
  durationMinutesMax : Option Int
  notes : Option String := none
deriving DecidableEq

/-- `BookingResult` (booking.py, lines 20-25). -/
structure BookingResult where
  action : String
  message : Option String
  proposedSlots : Option (List Int)
  updatedState : BookingState
deriving DecidableEq

/-- `ComposedReply` (reply_composer.py, lines 23-26). -/
structure ComposedReply where
  text : String
  error : Option String := none
deriving DecidableEq

/-- `Reply` (reply.py); the `meta` dict is omitted (it is never read by the
operations verified here). -/
structure Reply where
  text : String
  shouldHandoff : Bool
  handoffReason : String
deriving DecidableEq

/-- The knowledge-base port (ports/knowledge_base.py) as consumed by the
composer.  `getTemplate` yields the template's `.text`; `none` means no
template object was found (an existing template with empty text is
`some ""`). -/
structure KB where
  resolveServiceToRegistryKey : String → Option String
  getCanonicalServiceMessage : String → String → Option (List String)
  getTemplate : String → Option String → String → Option String
  getServiceFacts : String → String → Option String

/-! ### Service catalog (service_catalog_store.py)

The catalog *data* module (`service_catalog_data.SERVICE_CATALOG`) is not in
the sources; wherever the data itself is needed it is modelled from the spec
(see `SERVICE_CATALOG_M`).  The store's lookup logic below is embedded from
service_catalog_store.py. -/

abbrev Catalog := List (String × ServiceCatalogEntry)

def lookupAssoc {α : Type} (m : List (String × α)) (k : String) : Option α :=
  match m.find? (fun p => p.1 = k) with
  | some p => some p.2
  | none => none

/-- `ServiceCatalogStore.get_service`. -/
def catalogGetService (cat : Catalog) (serviceKey : String) : Option ServiceCatalogEntry :=
  lookupAssoc cat (pyStrip (pyLower serviceKey))

/-- `ServiceCatalogStore.get_duration_minutes`.  Note `if entry.duration_minutes_max:`
is Python truthiness, so `0` falls back to the minimum. -/
def catalogGetDurationMinutes (cat : Catalog) (serviceKey : String) : Int :=
  match catalogGetService cat serviceKey with
  | none => 60
  | some e =>
    match e.durationMinutesMax with
    | some m => if m ≠ 0 then m else e.durationMinutesMin
    | none => e.durationMinutesMin

/-- Modelled from the spec: the `SERVICE_CATALOG` dictionary of
service_catalog_data.py is absent from the sources.  The spec names laser
hair removal, facials, lashes, brows and permanent makeup as service
categories and "full body diode laser" (Pricing: $150) as a concrete
service, so a representative catalog with those entries is used where the
composer instantiates `ServiceCatalogStore()` directly. -/
def SERVICE_CATALOG_M : Catalog :=
  [("full body diode laser",
    ⟨"full body diode laser", "Full Body Diode Laser", "laser", some 150, none, 60, some 90, none⟩),
   ("brazilian laser",
    ⟨"brazilian laser", "Brazilian Laser", "laser", some 60, none, 30, some 45, none⟩),
   ("classic lashes",
    ⟨"classic lashes", "Classic Lashes", "lashes", some 120, none, 90, some 120, none⟩),
   ("microblading",
    ⟨"microblading", "Microblading", "brows", some 350, none, 120, some 150, none⟩),
   ("signature facial",
    ⟨"signature facial", "Signature Facial", "facial", some 110, none, 60, some 75, none⟩)]

/-! ### Reply composer (reply_composer.py) -/

/-- `CTA_SIGNATURES` (lines 9-20). -/
def ctaSignatures : List String :=
  ["Which service are you interested in? ✨",
   "Would you like to book a time? ✨",
   "What day and time works for you? ✨",
   "Let us know how we can help ✨",
   "Que servicio te interesa? ✨",
   "Te gustaria agendar una cita? ✨",
   "Que dia y hora te funciona? ✨",
   "Dinos como podemos ayudarte ✨",
   "Which area are you interested in? ✨",
   "Que area te interesa? ✨"]

/-- `FORBIDDEN_SYSTEM_PHRASES` (lines 301-313). -/
def forbiddenSystemPhrases : List String :=
  ["sorry", "not available", "system", "at this time", "unavailable",
   "error", "failed", "hubo un error", "lo siento", "sistema", "no disponible"]

/-- `_validate_no_system_language` (lines 316-322). -/
def validateNoSystemLanguage (text : String) : Bool × String :=
  match forbiddenSystemPhrases.find? (fun p => containsSub (pyLower text) p) with
  | some p => (false, "contains_system_language_" ++ p)
  | none => (true, "")

/-- `_greeting` (lines 408-412). -/
def greeting (language : String) : String :=
  if language = "es" then "Hola, gracias por escribirnos!"
  else "Hello, thank you for reaching out!"

/-- `_join_blocks` (lines 415-416). -/
def joinBlocks (blocks : List String) : String :=
  String.intercalate "\n\n" ((blocks.map pyStrip).filter (fun b => b ≠ ""))

/-- The seen-set loop of `_dedupe_paragraphs`. -/
def dedupKeepFirst : List (List Char) → List (List Char) → List (List Char)
  | _, [] => []
  | seen, p :: ps =>
    if seen.contains p then dedupKeepFirst seen ps
    else p :: dedupKeepFirst (p :: seen) ps

/-- `_dedupe_paragraphs` (lines 419-427). -/
def dedupeParagraphs (text : String) : String :=
  let paras := (splitPar text.data).filter (fun p => pyStripL p ≠ [])
  String.intercalate "\n\n" ((dedupKeepFirst [] paras).map (fun p => (⟨p⟩ : String)))

/-- `_contains_required` (lines 430-431). -/
def containsRequired (detail replyText : String) : Bool := containsSub replyText detail

/-- `_cta_count` (lines 434-435). -/
def ctaCount (text : String) : Nat :=
  (ctaSignatures.filter (fun sig => containsSub text sig)).length

/-- `_contains_cta_signature` (lines 438-439). -/
def containsCtaSignature (text : String) : Bool :=
  ctaSignatures.any (fun sig => containsSub text sig)

/-- `_strip_cta_paragraphs` (lines 442-445). -/
def stripCtaParagraphs (text : String) : String :=
  let paragraphs := (splitPar text.data).filter (fun p => pyStripL p ≠ [])
  let kept := paragraphs.filter (fun p => !containsCtaSignature ⟨p⟩)
  String.intercalate "\n\n" (kept.map (fun p => (⟨p⟩ : String)))

def bannedWords : List String := ["love", "hun", "babe", "sweetie", "honey"]

def disallowedEmojis : List String := ["💕", "🤍", "❤️", "💖", "🙏", "👍"]

/-- The disallowed-emoji test of `_validate_reply` (lines 460-464):
`📍` is removed first, then the six-emoji set is searched. -/
def hasDisallowedEmoji (text : String) : Bool :=
  let t := removeAll text "📍"
  disallowedEmojis.any (fun e => containsSub t e)

/-- The banned-word test of `_validate_reply` (lines 453-457). -/
def findBannedWord (text : String) : Option String :=
  bannedWords.find? (fun w => containsSub (pyLower text) w)

/-- `_validate_reply` (lines 448-473). -/
def validateReply (text : String) (_language : String) (isCanonicalMessage : Bool) :
    Bool × String :=
  if containsSub text "—" then (false, "contains_em_dash")
  else
    match findBannedWord text with
    | some w => (false, "contains_banned_word_" ++ w)
    | none =>
      if !isCanonicalMessage && hasDisallowedEmoji text then
        (false, "contains_disallowed_emoji")
      else if ctaCount text > 1 then (false, "cta_duplicate")
      else validateNoSystemLanguage text

/-- `_strip_pricing_from_yesno` (lines 476-490). -/
def stripPricingFromYesno (text : String) : String :=
  let t1 : List Char := subPricingFuel text.data.length text.data
  let t2 : String := pyStrip ⟨collapseWsFuel t1.length t1⟩
  if t2 ≠ "" && !strEnds t2 "." then rstripDotComma t2 ++ "." else t2

/-- `_validate_no_pricing_in_yesno` (lines 493-502). -/
def validateNoPricingInYesno : Option String → Bool
  | none => true
  | some s => if s = "" then true else !searchPricingDollar s

/-- `_validate_greeting_block` (lines 505-527). -/
def validateGreetingBlock (text : String) : Bool × String :=
  let allowedGreeting := "Hello, thank you for reaching out!"
  if text ≠ allowedGreeting then
    (false, "greeting_must_be_exact_got_" ++ pyRepr text)
  else
    let lowered := pyLower text
    if containsSub lowered "$" then (false, "greeting_contains_pricing")
    else if containsSub lowered "pricing" || containsSub lowered "precio" then
      (false, "greeting_contains_pricing_keyword")
    else if containsSub lowered "service" || containsSub lowered "servicio" then
      (false, "greeting_contains_service_name")
    else if containsSub lowered "which" || searchQueInteresa lowered then
      (false, "greeting_contains_cta")
    else (true, "")

/-- `_validate_yesno_block` (lines 530-563). -/
def validateYesnoBlock (text : String) : Bool × String :=
  if !strEnds (pyStrip text) "." then (false, "yesno_invalid_format")
  else if !(["yes,", "si,", "hello,", "hola,", "hi,", "hey,", "yes.", "si."].any
      (fun p => strStarts (pyLower text) p)) then
    (false, "yesno_invalid_format")
  else if searchPricingDollar text then (false, "yesno_contains_pricing")
  else if ["🤍", "✨", "☀️", "💕", "💆", "📍"].any (fun e => containsSub text e) then
    (false, "yesno_contains_emoji")
  else (true, "")

/-- `_validate_detail_block` (lines 566-579). -/
def validateDetailBlock (text : String) : Bool × String :=
  if text = "" || pyStrip text = "" then (false, "detail_empty")
  else if containsCtaSignature text then (false, "detail_contains_cta")
  else (true, "")

/-- `_validate_cta_block` (lines 582-620). -/
def validateCtaBlock (text : String) (isLaserService isServicesList : Bool) :
    Bool × String :=
  if isLaserService || isServicesList then
    if pyStrip text = "" then (false, "cta_empty")
    else if searchPricingDollar text then (false, "cta_contains_pricing")
    else (true, "")
  else
    let n := ctaCount text
    if n ≠ 1 then (false, "cta_count_" ++ natToStr n ++ "_not_one")
    else
      let emojiCount := (text.data.filter (fun c => c == '✨')).length
      if emojiCount ≠ 1 then
        (false, "cta_emoji_count_" ++ natToStr emojiCount ++ "_not_one")
      else if searchPricingDollar text then (false, "cta_contains_pricing")
      else if (["Laser", "Facial", "Lash", "Brow", "PMU", "Brazilian", "Full Body"].any
          (fun k => containsSub text k)) &&
          !((ctaSignatures.filter (fun sig => containsSub (pyLower sig) "service")).any
            (fun sig => containsSub text sig)) then
        (false, "cta_contains_service_name")
      else (true, "")

/-- `_validate_service_name_repetition` (lines 623-663): after computing the
paragraph split the source always returns `None` (the checks are documented
as deliberately lenient no-ops). -/
def validateServiceNameRepetition (_replyText : String) (_hasYesno : Bool) :
    Option String :=
  none

/-- `_validate_session_facts_block` (lines 677-722). -/
def validateSessionFactsBlock (text : String) : Bool × String :=
  if searchPricingDollar text then (false, "session_facts_contains_pricing")
  else if containsSub text "$" then (false, "session_facts_contains_dollar")
  else if ["full body", "full legs", "laser", "brazilian", "bikini"].any
      (fun p => containsSub (pyLower text) p) then
    (false, "session_facts_contains_service_name")
  else if ["guarantee", "guaranteed", "promise", "will", "always", "never"].any
      (fun p => containsSub (pyLower text) p) then
    (false, "session_facts_contains_guarantee")
  else if ["🤍", "✨", "☀️", "💕", "💆", "📍"].any (fun e => containsSub text e) then
    (false, "session_facts_contains_emoji")
  else (true, "")

/-- `_get_fallback_services_list` (lines 725-728). -/
def fallbackServicesList (language : String) : String :=
  if language = "es" then
    "Ofrecemos:\n• Depilación Láser\n• Faciales y Tratamientos de Piel\n• Pestañas\n• Cejas\n• Maquillaje Permanente\n• Servicios Combinados\n\nQue servicio te interesa? ✨"
  else
    "We offer:\n• Laser Hair Removal\n• Facials & Skin Treatments\n• Lash Services\n• Eyebrow Services\n• Permanent Makeup\n• Combo Services\n\nWhich service are you interested in? ✨"

/-- `_ask_day_time` (lines 289-292). -/
def askDayTime (language : String) : String :=
  if language = "es" then "Que dia y hora te funciona? ✨"
  else "What day and time works for you? ✨"

/-- `_ask_booking_preference` (lines 295-298). -/
def askBookingPreference (language : String) : String :=
  if language = "es" then "Te gustaria agendar una cita? ✨"
  else "Would you like to book a time? ✨"

/-! ### `strftime` fragments used by the composer

Datetimes are minutes since the epoch; the civil-calendar conversion is the
standard era/year-of-era algorithm. -/

def civilFromDays (z0 : Int) : Int × Nat × Nat :=
  let z := z0 + 719468
  let era : Int := z.fdiv 146097
  let doe : Nat := (z - era * 146097).toNat
  let yoe : Nat := (doe - doe / 1460 + doe / 36524 - doe / 146096) / 365
  let doy : Nat := doe - (365 * yoe + yoe / 4 - yoe / 100)
  let mp : Nat := (5 * doy + 2) / 153
  let d : Nat := doy - (153 * mp + 2) / 5 + 1
  let m : Nat := if mp < 10 then mp + 3 else mp - 9
  (era * 400 + yoe + (if m ≤ 2 then 1 else 0), m, d)

def daysFromCivil (y : Int) (m d : Nat) : Int :=
  let y' := if m ≤ 2 then y - 1 else y
  let era : Int := y'.fdiv 400
  let yoe : Nat := (y' - era * 400).toNat
  let mp : Nat := (m + 9) % 12
  let doy : Nat := (153 * mp + 2) / 5 + d - 1
  let doe : Nat := yoe * 365 + yoe / 4 - yoe / 100 + doy
  era * 146097 + (doe : Int) - 719468

def isLeapYear (y : Int) : Bool :=
  (y % 4 == 0 && y % 100 != 0) || y % 400 == 0

def daysInMonth (y : Int) (m : Nat) : Nat :=
  if m = 2 then (if isLeapYear y then 29 else 28)
  else if m = 4 || m = 6 || m = 9 || m = 11 then 30
  else 31

/-- `datetime.date(y, m, d)` raises `ValueError` outside these bounds. -/
def isValidDate (y : Int) (m d : Nat) : Bool :=
  1 ≤ y && y ≤ 9999 && 1 ≤ m && m ≤ 12 && 1 ≤ d && d ≤ daysInMonth y m

def monthNames : List String :=
  ["January", "February", "March", "April", "May", "June", "July",
   "August", "September", "October", "November", "December"]

/-- `strftime("%I:%M %p")` of a datetime in minutes. -/
def fmtTime12 (t : Int) : String :=
  let mm := (t.emod 1440).toNat
  let h := mm / 60
  let mi := mm % 60
  let h12 := if h % 12 = 0 then 12 else h % 12
  pad2 h12 ++ ":" ++ pad2 mi ++ " " ++ (if h < 12 then "AM" else "PM")

/-- `strftime("%B %d")` of a datetime in minutes. -/
def fmtMonthDay (t : Int) : String :=
  let c := civilFromDays (t.fdiv 1440)
  monthNames.getD (c.2.1 - 1) "" ++ " " ++ pad2 c.2.2

/-- `_format_slots` (reply_composer.py, lines 325-346). -/
def fmtSlots (slots : List Int) (language : String) : String :=
  if slots.isEmpty then ""
  else
    let formatted := slots.map fmtTime12
    if language = "es" then
      match formatted with
      | [f] => f
      | [f, g] => f ++ " o " ++ g
      | _ => String.intercalate ", " formatted.dropLast ++ " o " ++ formatted.getLastD ""
    else
      match formatted with
      | [f] => f
      | [f, g] => f ++ " or " ++ g
      | _ => String.intercalate ", " formatted.dropLast ++ " or " ++ formatted.getLastD ""

/-- `_build_booking_message` (reply_composer.py, lines 349-405).  The
`confirm` branch instantiates `ServiceCatalogStore()` directly, i.e. the
spec-modelled `SERVICE_CATALOG_M`. -/
def buildBookingMessage (br : BookingResult) (language : String) : String :=
  if br.action = "ask_date" then
    if language = "es" then "¿Qué fecha te funciona?" else "What date works for you?"
  else if br.action = "ask_time" then
    if language = "es" then "¿Qué hora te funciona mejor?" else "What time works best for you?"
  else if br.action = "suggest_slots" then
    match br.proposedSlots with
    | some (s :: ss) =>
      let slotsText := fmtSlots (s :: ss) language
      if language = "es" then
        "Tengo disponibilidad en: " ++ slotsText ++ ". ¿Cuál te funciona mejor?"
      else "I have availability at: " ++ slotsText ++ ". Which works better for you?"
    | _ =>
      if language = "es" then "¿Qué día y hora te funciona?"
      else "What day and time works for you?"
  else if br.action = "confirm" then
    match br.proposedSlots with
    | some (slot :: _) =>
      let dateStr := fmtMonthDay slot
      let timeStr := fmtTime12 slot
      let serviceName :=
        match br.updatedState.serviceKey with
        | some k =>
          if k ≠ "" then
            match catalogGetService SERVICE_CATALOG_M k with
            | some e => e.displayName
            | none => k
          else "appointment"
        | none => "appointment"
      if language = "es" then
        "¿Te gustaría que reserve " ++ serviceName ++ " el " ++ dateStr ++ " a las " ++ timeStr ++ "?"
      else
        "Would you like me to book " ++ serviceName ++ " on " ++ dateStr ++ " at " ++ timeStr ++ "?"
    | _ => ""
  else if br.action = "booked" then
    match br.updatedState.proposedTime with
    | some t =>
      let dateStr := fmtMonthDay t
      let timeStr := fmtTime12 t
      if language = "es" then
        "¡Perfecto! He reservado tu cita para el " ++ dateStr ++ " a las " ++ timeStr ++ ". Te esperamos."
      else
        "Perfect! I've booked your appointment for " ++ dateStr ++ " at " ++ timeStr ++ ". We look forward to seeing you."
    | none => ""
  else if br.action = "unavailable" || br.action = "reset" then
    if language = "es" then "¿Qué día y hora te funciona?"
    else "What day and time works for you?"
  else ""

/-- `ReplyComposer._select_detail_block` (lines 185-226). -/
def selectDetailBlock (kb : KB) (intent : String) (service : Option String)
    (language : String) (explicitPriceIntent : Bool) : Option String :=
  if intent = "pricing" || intent = "service_details" || intent = "availability" ||
      intent = "booking" then
    if optTruthy service then
      if (intent = "pricing" || intent = "service_details") && !explicitPriceIntent then
        kb.getTemplate "booking_info" none language
      else if intent = "availability" || intent = "booking" then
        kb.getTemplate "booking_info" none language
      else
        match kb.getTemplate "pricing" service language with
        | some t => some t
        | none => kb.getTemplate "service_details" service language
    else if intent = "availability" || intent = "booking" then
      kb.getTemplate "booking_info" none language
    else kb.getTemplate "services_list" none language
  else if intent = "services_list" then kb.getTemplate "services_list" none language
  else if intent = "location" then kb.getTemplate "location" none language
  else if intent = "hours" then kb.getTemplate "hours" none language
  else if intent = "laser_clarification" then kb.getTemplate "laser_clarification" none language
  else none

/-- `ReplyComposer._is_laser_service` (lines 228-245). -/
def isLaserServiceCheck (kb : KB) (resolvedService userMessageText : Option String) : Bool :=
  let hitsKeywords (s : String) : Bool :=
    let l := pyLower s
    containsSub l "laser" || containsSub l "brow" || containsSub l "lash" ||
      containsSub l "facial" || containsSub l "microdermabrasion" || containsSub l "facelift"
  let keyHit :=
    if optTruthy userMessageText then
      match kb.resolveServiceToRegistryKey (userMessageText.getD "") with
      | some rk => rk ≠ "" && hitsKeywords rk
      | none => false
    else false
  if keyHit then true
  else if optTruthy resolvedService then hitsKeywords (resolvedService.getD "")
  else false

/-- `ReplyComposer._select_cta_block` (lines 247-286). -/
def selectCtaBlock (intent : String) (language : String) (detailText : String)
    (isLaserService : Bool) : Option String :=
  if isLaserService then
    some (if language = "es" then
      "Por favor avisanos si tienes alguna pregunta sobre el tratamiento o si te gustaria agendar una cita."
    else
      "Please let us know if you have any questions regarding the treatment or if you would like to schedule an appointment.")
  else if intent = "availability" then
    let ask := askDayTime language
    if containsSub detailText ask then none else some ask
  else if intent = "booking" then
    let ask := askBookingPreference language
    if containsSub detailText ask then none else some ask
  else if containsCtaSignature detailText then none
  else if intent = "services_list" then
    some (if language = "es" then
      "Por favor avisanos si tienes alguna pregunta sobre nuestros tratamientos."
    else "Please let us know if you have any questions regarding our treatments.")
  else if intent = "laser_clarification" then
    some (if language = "es" then "Que area te interesa? ✨"
      else "Which area are you interested in? ✨")
  else if intent = "hours" || intent = "location" || intent = "pricing" ||
      intent = "service_details" then
    some (if language = "es" then "Dinos como podemos ayudarte ✨"
      else "Let us know how we can help ✨")
  else if intent = "closing" then some "You are very welcome."
  else none

/-- Lines 75-87 of `compose`: resolve the canonical service message. -/
def canonicalFrom (kb : KB) (language txt : String) : Option String :=
  match kb.resolveServiceToRegistryKey txt with
  | some rk =>
    if rk = "" then none
    else
      match kb.getCanonicalServiceMessage rk language with
      | some lines => if lines.isEmpty then none else some (String.intercalate "\n" lines)
      | none => none
  | none => none

def composeCanonicalMessage (kb : KB) (language : String)
    (userMessageText resolvedService : Option String) : Option String :=
  if optTruthy userMessageText then canonicalFrom kb language (userMessageText.getD "")
  else if optTruthy resolvedService then canonicalFrom kb language (resolvedService.getD "")
  else none

/-! `ReplyComposer.compose` (lines 33-183), staged by source line ranges;
each `composeNNN` continues the computation from line NNN with the
accumulated blocks and intermediate values. -/

/-- Lines 160-183: final whole-reply checks. -/
def compose160 (language : String) (explicitPriceIntent canonUsed hasYesno : Bool)
    (detail replyText : String) : ComposedReply :=
  match (if !canonUsed then validateServiceNameRepetition replyText hasYesno else none) with
  | some e => ⟨fallbackServicesList language, some ("service_name_validation_failed_" ++ e)⟩
  | none =>
    if !canonUsed && decide (countPricing replyText > 1) then
      ⟨fallbackServicesList language,
        some ("pricing_duplication_" ++ natToStr (countPricing replyText) ++ "_occurrences")⟩
    else if !canonUsed && decide (countPricing replyText > 0) && !explicitPriceIntent then
      ⟨fallbackServicesList language, some "pricing_without_explicit_intent"⟩
    else if ctaCount replyText > 1 then
      ⟨fallbackServicesList language, some "cta_duplicate"⟩
    else if !canonUsed && detail ≠ "" && !containsRequired detail replyText then
      ⟨fallbackServicesList language, some "missing_required_content"⟩
    else
      let v := validateReply replyText language canonUsed
      if !v.1 then ⟨fallbackServicesList language, some ("validation_failed_" ++ v.2)⟩
      else ⟨replyText, none⟩

/-- Lines 141-158: assembly, dedup and the pricing-in-yes/no second pass. -/
def compose141 (kb : KB) (language : String) (greetingApplicable : Bool)
    (yesnoCur : Option String) (detail : String) (includeLocation : Bool)
    (cta : Option String) (explicitPriceIntent canonUsed : Bool)
    (blocks : List String) : ComposedReply :=
  let replyText0 := dedupeParagraphs (joinBlocks blocks)
  let replyText :=
    if optTruthy yesnoCur && !validateNoPricingInYesno yesnoCur then
      let cleaned :=
        (if greetingApplicable then [greeting language] else []) ++
        [stripPricingFromYesno (yesnoCur.getD "")] ++
        (if detail ≠ "" then [detail] else []) ++
        (if includeLocation then
          match kb.getTemplate "location" none language with
          | some t => [t]
          | none => []
        else []) ++
        (match cta with
         | some c => if c ≠ "" then [c] else []
         | none => [])
      dedupeParagraphs (joinBlocks cleaned)
    else replyText0
  compose160 language explicitPriceIntent canonUsed (optTruthy yesnoCur) detail replyText

/-- Lines 131-139: CTA selection and validation. -/
def compose131 (kb : KB) (intent : String) (resolvedService : Option String)
    (language : String) (greetingApplicable : Bool) (yesnoCur : Option String)
    (detail : String) (includeLocation : Bool) (explicitPriceIntent : Bool)
    (userMessageText : Option String) (canonicalMessage : Option String)
    (blocks : List String) : ComposedReply :=
  let isLaser := isLaserServiceCheck kb resolvedService userMessageText
  let isServicesList := intent = "services_list"
  let canonUsed := optTruthy canonicalMessage
  let detailForCta := if canonUsed then canonicalMessage.getD "" else detail
  let cta := selectCtaBlock intent language detailForCta isLaser
  if optTruthy cta then
    let v := validateCtaBlock (cta.getD "") isLaser isServicesList
    if !v.1 then
      ⟨fallbackServicesList language, some ("cta_validation_failed_" ++ v.2)⟩
    else
      compose141 kb language greetingApplicable yesnoCur detail includeLocation cta
        explicitPriceIntent canonUsed (blocks ++ [cta.getD ""])
  else
    compose141 kb language greetingApplicable yesnoCur detail includeLocation cta
      explicitPriceIntent canonUsed blocks

/-- Lines 125-129: location block. -/
def compose125 (kb : KB) (intent : String) (resolvedService : Option String)
    (language : String) (greetingApplicable : Bool) (yesnoCur : Option String)
    (detail : String) (includeLocation : Bool) (explicitPriceIntent : Bool)
    (userMessageText : Option String) (canonicalMessage : Option String)
    (blocks : List String) : ComposedReply :=
  if includeLocation then
    match kb.getTemplate "location" none language with
    | none => ⟨"", some "missing_location"⟩
    | some t =>
      compose131 kb intent resolvedService language greetingApplicable yesnoCur detail
        includeLocation explicitPriceIntent userMessageText canonicalMessage (blocks ++ [t])
  else
    compose131 kb intent resolvedService language greetingApplicable yesnoCur detail
      includeLocation explicitPriceIntent userMessageText canonicalMessage blocks

/-- Lines 112-123: equipment and session-facts blocks. -/
def compose112 (kb : KB) (intent : String) (resolvedService : Option String)
    (language : String) (greetingApplicable : Bool) (yesnoCur : Option String)
    (detail : String) (includeLocation : Bool) (explicitPriceIntent : Bool)
    (includeEquipment includeSessionFacts : Bool)
    (userMessageText : Option String) (canonicalMessage : Option String)
    (blocks : List String) : ComposedReply :=
  let blocks1 :=
    if includeEquipment then
      match kb.getTemplate "equipment" none language with
      | some t => blocks ++ [t]
      | none => blocks
    else blocks
  if includeSessionFacts && optTruthy resolvedService && explicitPriceIntent then
    match kb.getServiceFacts (resolvedService.getD "") language with
    | some f =>
      if f ≠ "" then
        let v := validateSessionFactsBlock f
        if !v.1 then
          ⟨fallbackServicesList language, some ("session_facts_validation_failed_" ++ v.2)⟩
        else
          compose125 kb intent resolvedService language greetingApplicable yesnoCur detail
            includeLocation explicitPriceIntent userMessageText canonicalMessage (blocks1 ++ [f])
      else
        compose125 kb intent resolvedService language greetingApplicable yesnoCur detail
          includeLocation explicitPriceIntent userMessageText canonicalMessage blocks1
    | none =>
      compose125 kb intent resolvedService language greetingApplicable yesnoCur detail
        includeLocation explicitPriceIntent userMessageText canonicalMessage blocks1
  else
    compose125 kb intent resolvedService language greetingApplicable yesnoCur detail
      includeLocation explicitPriceIntent userMessageText canonicalMessage blocks1

/-- Lines 89-110: yes/no and detail blocks (non-canonical path). -/
def compose89 (kb : KB) (intent : String) (resolvedService : Option String)
    (language : String) (greetingApplicable : Bool) (yesnoCur : Option String)
    (includeLocation bookingOnlyCta : Bool) (explicitPriceIntent : Bool)
    (includeEquipment includeSessionFacts : Bool)
    (userMessageText : Option String) (canonicalMessage : Option String)
    (blocks : List String) : ComposedReply :=
  if !bookingOnlyCta then
    let d? := selectDetailBlock kb intent resolvedService language explicitPriceIntent
    if !optTruthy d? then ⟨"", some "missing_detail"⟩
    else
      let d0 := d?.getD ""
      let d1 := if intent = "availability" || intent = "booking" then
          stripCtaParagraphs d0
        else d0
      let v := validateDetailBlock d1
      if !v.1 then
        ⟨fallbackServicesList language, some ("detail_validation_failed_" ++ v.2)⟩
      else
        compose112 kb intent resolvedService language greetingApplicable yesnoCur d1
          includeLocation explicitPriceIntent includeEquipment includeSessionFacts
          userMessageText canonicalMessage (blocks ++ [d1])
  else
    compose112 kb intent resolvedService language greetingApplicable yesnoCur ""
      includeLocation explicitPriceIntent includeEquipment includeSessionFacts
      userMessageText canonicalMessage blocks

/-- Lines 75-110: canonical message, else yes/no + detail. -/
def compose75 (kb : KB) (intent : String) (resolvedService : Option String)
    (language : String) (greetingApplicable : Bool) (yesnoAnswer : Option String)
    (includeLocation bookingOnlyCta : Bool) (explicitPriceIntent : Bool)
    (includeEquipment includeSessionFacts : Bool)
    (userMessageText : Option String) (blocks : List String) : ComposedReply :=
  let canonicalMessage := composeCanonicalMessage kb language userMessageText resolvedService
  if optTruthy canonicalMessage then
    compose112 kb intent resolvedService language greetingApplicable yesnoAnswer
      (canonicalMessage.getD "") includeLocation explicitPriceIntent includeEquipment
      includeSessionFacts userMessageText canonicalMessage (blocks ++ [canonicalMessage.getD ""])
  else if optTruthy yesnoAnswer then
    let y := stripPricingFromYesno (yesnoAnswer.getD "")
    let v := validateYesnoBlock y
    if !v.1 then
      ⟨fallbackServicesList language, some ("yesno_validation_failed_" ++ v.2)⟩
    else
      compose89 kb intent resolvedService language greetingApplicable (some y)
        includeLocation bookingOnlyCta explicitPriceIntent includeEquipment
        includeSessionFacts userMessageText canonicalMessage (blocks ++ [y])
  else
    compose89 kb intent resolvedService language greetingApplicable yesnoAnswer
      includeLocation bookingOnlyCta explicitPriceIntent includeEquipment
      includeSessionFacts userMessageText canonicalMessage blocks

/-- `ReplyComposer.compose` (lines 33-183). -/
def compose (kb : KB) (intent : String) (resolvedService : Option String)
    (language : String) (greetingApplicable : Bool) (yesnoAnswer : Option String)
    (includeLocation bookingOnlyCta explicitPriceIntent : Bool)
    (includeEquipment includeSessionFacts : Bool)
    (userMessageText : Option String) (bookingResult : Option BookingResult) :
    ComposedReply :=
  -- lines 52-58: greeting block
  let gv := validateGreetingBlock (greeting language)
  if greetingApplicable && !gv.1 then
    ⟨fallbackServicesList language, some ("greeting_validation_failed_" ++ gv.2)⟩
  else
    let blocks0 : List String := if greetingApplicable then [greeting language] else []
    -- lines 60-73: booking-flow short-circuit
    match bookingResult with
    | some br =>
      let bm := if optTruthy br.message then br.message.getD ""
        else buildBookingMessage br language
      if bm ≠ "" then
        let replyText := joinBlocks (blocks0 ++ [bm])
        let v := validateReply replyText language false
        if !v.1 then
          ⟨fallbackServicesList language, some ("booking_validation_failed_" ++ v.2)⟩
        else ⟨replyText, none⟩
      else
        compose75 kb intent resolvedService language greetingApplicable yesnoAnswer
          includeLocation bookingOnlyCta explicitPriceIntent includeEquipment
          includeSessionFacts userMessageText blocks0
    | none =>
      compose75 kb intent resolvedService language greetingApplicable yesnoAnswer
        includeLocation bookingOnlyCta explicitPriceIntent includeEquipment
        includeSessionFacts userMessageText blocks0

/-! ### `GenerateReplyUseCase.execute` (generate_reply.py, lines 16-54) -/

def generateReplyExecute (kb : KB) (intent : String) (service : Option String)
    (language : String) (greetingApplicable : Bool) (yesnoAnswer : Option String)
    (includeLocation bookingOnlyCta explicitPriceIntent : Bool)
    (includeEquipment includeSessionFacts : Bool)
    (userMessageText : Option String) (bookingResult : Option BookingResult) : Reply :=
  let composed := compose kb intent service language greetingApplicable yesnoAnswer
    includeLocation bookingOnlyCta explicitPriceIntent includeEquipment
    includeSessionFacts userMessageText bookingResult
  if optTruthy composed.error then
    ⟨"", true, composed.error.getD ""⟩
  else ⟨composed.text, false, ""⟩

/-! ### Date/time parsing (application/utils/date_parser.py)

The regex matchers below implement the source's patterns with explicit
greedy-then-backtrack candidate orders; `\w`/`\s` are the ASCII classes. -/

def isSepSlashDash (c : Char) : Bool := c == '/' || c == '-'

/-- Head-position candidates for `\d{1,2}`, in greedy order. -/
def take12 (l : List Char) : List (Nat × List Char) :=
  match l with
  | a :: b :: rest =>
    if a.isDigit && b.isDigit then
      [(natOfDigits [a, b], rest), (natOfDigits [a], b :: rest)]
    else if a.isDigit then [(natOfDigits [a], b :: rest)]
    else []
  | [a] => if a.isDigit then [(natOfDigits [a], [])] else []
  | [] => []

/-- Head-position candidates for `\d{2,4}`, in greedy order. -/
def takeYear (l : List Char) : List (Nat × List Char) :=
  let n := (takeDigits l).length
  (([4, 3, 2] : List Nat).filter (fun k => k ≤ n)).map
    (fun k => (natOfDigits (l.take k), l.drop k))

/-- `\b` immediately after a word character: next char non-word or end. -/
def boundaryAfterWord : List Char → Bool
  | [] => true
  | c :: _ => !isWordPy c

/-- Left-to-right scan trying `matchAt` at every position whose left context
is a word boundary before a word character (all patterns here start with
`\b\d`). -/
def scanBndGo {α : Type} (matchAt : List Char → Option α) :
    Option Char → List Char → Option α
  | _, [] => none
  | prev, c :: cs =>
    let bnd := match prev with
      | some p => !isWordPy p
      | none => true
    match (if bnd then matchAt (c :: cs) else none) with
    | some r => some r
    | none => scanBndGo matchAt (some c) cs

/-- `\b(\d{1,2})\b` at the head. -/
def matchShortNumAt (l : List Char) : Option Nat :=
  (take12 l).findSome? (fun p => if boundaryAfterWord p.2 then some p.1 else none)

/-- First date pattern: one-or-two-digit month, a slash-or-dash separator,
one-or-two-digit day, an optional separator and an optional 2-4 digit year,
all inside word boundaries; the four continuations after the second number
are tried in regex priority order. -/
def matchDate1At (l : List Char) : Option (Nat × Nat × Option Nat) :=
  (take12 l).findSome? (fun p1 =>
    match p1.2 with
    | s :: r2 =>
      if isSepSlashDash s then
        (take12 r2).findSome? (fun p2 =>
          let withSep : Option (Nat × Nat × Option Nat) :=
            match p2.2 with
            | s2 :: r4 =>
              if isSepSlashDash s2 then
                match (takeYear r4).findSome? (fun p3 =>
                    if boundaryAfterWord p3.2 then some (p1.1, p2.1, some p3.1) else none) with
                | some r => some r
                | none =>
                  -- separator consumed, year group empty: the boundary sits
                  -- between the non-word separator and the next character
                  match r4 with
                  | c :: _ => if isWordPy c then some (p1.1, p2.1, none) else none
                  | [] => none
              else none
            | [] => none
          match withSep with
          | some r => some r
          | none =>
            match (takeYear p2.2).findSome? (fun p3 =>
                if boundaryAfterWord p3.2 then some (p1.1, p2.1, some p3.1) else none) with
            | some r => some r
            | none => if boundaryAfterWord p2.2 then some (p1.1, p2.1, none) else none)
      else none
    | [] => none)

/-- Second date pattern: month, slash-or-dash separator, day, inside word
boundaries, at the head. -/
def matchDate2At (l : List Char) : Option (Nat × Nat) :=
  (take12 l).findSome? (fun p1 =>
    match p1.2 with
    | s :: r2 =>
      if isSepSlashDash s then
        (take12 r2).findSome? (fun p2 =>
          if boundaryAfterWord p2.2 then some (p1.1, p2.1) else none)
      else none
    | [] => none)

def dayNamesTable : List (String × Nat) :=
  [("monday", 0), ("tuesday", 1), ("wednesday", 2), ("thursday", 3), ("friday", 4),
   ("saturday", 5), ("sunday", 6), ("lunes", 0), ("martes", 1), ("miercoles", 2),
   ("miércoles", 2), ("jueves", 3), ("viernes", 4), ("sabado", 5), ("sábado", 5),
   ("domingo", 6)]

def monthNamesTable : List (String × Nat) :=
  [("january", 1), ("february", 2), ("march", 3), ("april", 4), ("may", 5),
   ("june", 6), ("july", 7), ("august", 8), ("september", 9), ("october", 10),
   ("november", 11), ("december", 12), ("enero", 1), ("febrero", 2), ("marzo", 3),
   ("abril", 4), ("mayo", 5), ("junio", 6), ("julio", 7), ("agosto", 8),
   ("septiembre", 9), ("octubre", 10), ("noviembre", 11), ("diciembre", 12)]

/-- `date.weekday()` (Monday = 0); day 0 = 1970-01-01 was a Thursday. -/
def weekdayOf (d : Int) : Int := (d + 3).emod 7

/-- `parse_date_preference` (date_parser.py, lines 18-125).  `referenceDate`
models `datetime.now(timezone).date()` when no explicit reference is given. -/
def parseDatePreference (text : String) (referenceDate : Int) : Option Int :=
  let normalized := pyStrip (pyLower text)
  if containsSub normalized "today" || containsSub normalized "hoy" then
    some referenceDate
  else if containsSub normalized "tomorrow" || containsSub normalized "mañana" then
    some (referenceDate + 1)
  else
    let dayHit := dayNamesTable.findSome? (fun p =>
      if containsSub normalized p.1 then
        let daysAhead := ((p.2 : Int) - weekdayOf referenceDate).emod 7
        some (referenceDate + (if daysAhead = 0 then 7 else daysAhead))
      else none)
    match dayHit with
    | some d => some d
    | none =>
      -- the "next" branch re-scans the (absent) day names and cannot fire here
      let nextHit :=
        if containsSub normalized "next" then
          dayNamesTable.findSome? (fun p =>
            if containsSub normalized p.1 then
              let daysAhead := ((p.2 : Int) - weekdayOf referenceDate).emod 7
              some (referenceDate + (if daysAhead = 0 then 7 else daysAhead) + 7)
            else none)
        else none
      match nextHit with
      | some d => some d
      | none =>
        let refC := civilFromDays referenceDate
        let monthHit := monthNamesTable.findSome? (fun p =>
          if containsSub normalized p.1 then
            match scanBndGo matchShortNumAt none normalized.data with
            | some day =>
              let year := refC.1 +
                (if p.2 < refC.2.1 || (p.2 = refC.2.1 && day < refC.2.2) then 1 else 0)
              if isValidDate year p.2 day then some (daysFromCivil year p.2 day) else none
            | none => none
          else none)
        match monthHit with
        | some d => some d
        | none =>
          let pat1 :=
            match scanBndGo matchDate1At none normalized.data with
            | some (mo, dy, yr?) =>
              let year0 : Int := match yr? with
                | some y => (y : Int)
                | none => refC.1
              let year1 := if year0 < 100 then year0 + 2000 else year0
              let year2 := year1 +
                (if mo < refC.2.1 || (mo = refC.2.1 && dy < refC.2.2) then 1 else 0)
              if isValidDate year2 mo dy then some (daysFromCivil year2 mo dy) else none
            | none => none
          match pat1 with
          | some d => some d
          | none =>
            match scanBndGo matchDate2At none normalized.data with
            | some (mo, dy) =>
              let year0 : Int := refC.1
              let year1 := if year0 < 100 then year0 + 2000 else year0
              let year2 := year1 +
                (if mo < refC.2.1 || (mo = refC.2.1 && dy < refC.2.2) then 1 else 0)
              if isValidDate year2 mo dy then some (daysFromCivil year2 mo dy) else none
            | none => none

/-- `(am|pm)` at the head. -/
def ampmAt (l : List Char) : Option (String × List Char) :=
  match dropPre "am".data l with
  | some r => some ("am", r)
  | none =>
    match dropPre "pm".data l with
    | some r => some ("pm", r)
    | none => none

/-- Continuation `\s*(am|pm)?\b` right after the matched digits.  The star is
greedy; am/pm can only match past all the whitespace, and when whitespace is
present the empty alternative always succeeds at the digits/whitespace
boundary. -/
def timeTail (l : List Char) : Option (Option String) :=
  let rest := l.dropWhile isWsPy
  let hasWs := !(l.takeWhile isWsPy).isEmpty
  let emptyOpt : Option (Option String) :=
    if hasWs then some none
    else
      match rest with
      | [] => some none
      | c :: _ => if !isWordPy c then some none else none
  match ampmAt rest with
  | some (ap, r) => if boundaryAfterWord r then some (some ap) else emptyOpt
  | none => emptyOpt

/-- `\b(\d{1,2}):(\d{2})\s*(am|pm)?\b` at the head. -/
def matchTime1At (l : List Char) : Option (Nat × Nat × Option String) :=
  (take12 l).findSome? (fun p1 =>
    match p1.2 with
    | ':' :: a :: b :: r3 =>
      if a.isDigit && b.isDigit then
        match timeTail r3 with
        | some ap => some (p1.1, natOfDigits [a, b], ap)
        | none => none
      else none
    | _ => none)

/-- `\b(\d{1,2})\s*(am|pm)\b` at the head. -/
def matchTime2At (l : List Char) : Option (Nat × String) :=
  (take12 l).findSome? (fun p1 =>
    match ampmAt (p1.2.dropWhile isWsPy) with
    | some (ap, r) => if boundaryAfterWord r then some (p1.1, ap) else none
    | none => none)

def adjustAmPm (hour : Nat) : Option String → Nat
  | some "pm" => if hour ≠ 12 then hour + 12 else hour
  | some "am" => if hour = 12 then 0 else hour
  | _ => hour

/-- `parse_time_preference` (date_parser.py, lines 128-152). -/
def parseTimePreference (text : String) : Option (Nat × Nat) :=
  let l := (pyStrip (pyLower text)).data
  let r1 : Option (Nat × Nat) :=
    match scanBndGo matchTime1At none l with
    | some (h, m, ap) =>
      let hour := adjustAmPm h ap
      if hour ≤ 23 && m ≤ 59 then some (hour, m) else none
    | none => none
  match r1 with
  | some r => some r
  | none =>
    match scanBndGo matchTime2At none l with
    | some (h, ap) =>
      let hour := adjustAmPm h (some ap)
      if hour ≤ 23 then some (hour, 0) else none
    | none => none

/-- `VAGUE_TIME_RANGES` / `map_vague_time_to_range` (lines 7-15, 155-158). -/
def mapVagueTimeToRange (s : String) : Option (Nat × Nat) :=
  lookupAssoc
    [("morning", (9, 12)), ("afternoon", (12, 17)), ("evening", (17, 20)),
     ("night", (18, 21)), ("mañana", (9, 12)), ("tarde", (12, 17)), ("noche", (17, 20))]
    (pyStrip (pyLower s))

/-! ### Calendar collaborators -/

/-- The calendar port (ports/calendar.py) against a calendar-backend state
`σ`; `createEvent` may raise (modelled by `Except`, the `String` carrying the
exception message). -/
structure CalendarPort (σ : Type) where
  checkAvailability : σ → Int → Int → Bool
  findAvailableSlots : σ → Int → Int → Int → Int → List Int
  createEvent : σ → Int → Int → String → String → Except String (String × σ)

/-- `MockCalendar` state (mock_calendar.py): the `_events` dict as an
insertion-ordered list of (event id, start, end). -/
abbrev MockCalEvents := List (String × Int × Int)

/-- `MockCalendar.check_availability` (lines 14-18). -/
def mockCheckAvailability (events : MockCalEvents) (start end_ : Int) : Bool :=
  events.all (fun e => end_ ≤ e.2.1 || start ≥ e.2.2)

/-- The `while` loop of `find_available_slots`; the fuel bounds the number of
30-minute steps and is chosen ≥ the loop's exact iteration count. -/
def mockFindSlotsGo (events : MockCalEvents) (durationMinutes endTime : Int) :
    Nat → Int → List Int
  | 0, _ => []
  | fuel + 1, current =>
    if current + durationMinutes ≤ endTime then
      (if mockCheckAvailability events current (current + durationMinutes) then [current] else []) ++
        mockFindSlotsGo events durationMinutes endTime fuel (current + 30)
    else []

/-- `MockCalendar.find_available_slots` (lines 20-37). -/
def mockFindAvailableSlots (events : MockCalEvents)
    (date durationMinutes startHour endHour : Int) : List Int :=
  let current := date * 1440 + startHour * 60
  let endTime := date * 1440 + endHour * 60
  (mockFindSlotsGo events durationMinutes endTime
    ((endTime - durationMinutes - current).toNat + 1) current).take 10

/-- `MockCalendar.create_event` (lines 39-58). -/
def mockCreateEvent (events : MockCalEvents) (start end_ : Int)
    (_title _description : String) : Except String (String × MockCalEvents) :=
  let eventId := "mock_event_" ++ natToStr (events.length + 1)
  .ok (eventId, events ++ [(eventId, start, end_)])

def mockCalendar : CalendarPort MockCalEvents :=
  ⟨mockCheckAvailability, mockFindAvailableSlots, mockCreateEvent⟩

/-! ### Booking use case (application/use_cases/booking.py) -/

/-- A Python exception escaping a use case. -/
inductive PyErr
  | typeError (msg : String)
deriving DecidableEq

/-- `BookingUseCase._is_confirmation` (lines 313-329). -/
def isConfirmation (text : String) : Bool :=
  ["yes", "yeah", "yep", "sure", "ok", "okay", "confirm", "book it", "si", "sí",
   "claro", "vale", "confirmar"].any (fun c => containsSub text c)

/-- `BookingUseCase._get_service_duration` (lines 331-334). -/
def getServiceDuration (catalog : Catalog) (service : Option String) : Int :=
  if !optTruthy service then 60
  else catalogGetDurationMinutes catalog (service.getD "")

/-- `BookingUseCase._start_booking_flow` (lines 113-119). -/
def startBookingFlow (service : Option String) (_language : String) : BookingResult :=
  ⟨"ask_date", none, none, { status := "collecting_date", serviceKey := service }⟩

/-- `BookingUseCase._process_date_input` (lines 121-170).  `today` models
`datetime.now(self._timezone).date()` inside `parse_date_preference`.
With exactly one available slot, the source constructs
`BookingState(..., service=service)`; the frozen dataclass has no `service`
field, so Python raises `TypeError`. -/
def processDateInput {σ : Type} (cal : CalendarPort σ) (calSt : σ) (catalog : Catalog)
    (today : Int) (messageText : String) (currentState : BookingState)
    (service : Option String) (_language : String) : Except PyErr BookingResult :=
  match parseDatePreference messageText today with
  | none => .ok ⟨"ask_date", none, none, currentState⟩
  | some parsedDate =>
    let duration := getServiceDuration catalog service
    let slots := cal.findAvailableSlots calSt parsedDate duration 9 17
    if slots.isEmpty then .ok ⟨"ask_date", none, none, currentState⟩
    else if slots.length ≥ 2 then
      .ok ⟨"suggest_slots", none, some (slots.take 2),
        { status := "collecting_time", proposedDate := some (parsedDate * 1440),
          serviceKey := service }⟩
    else .error (.typeError "__init__() got an unexpected keyword argument 'service'")

/-- `BookingUseCase._process_time_input` (lines 172-240). -/
def processTimeInput {σ : Type} (cal : CalendarPort σ) (calSt : σ) (catalog : Catalog)
    (bufferMinutes : Int) (messageText : String) (currentState : BookingState)
    (service : Option String) (language : String) : BookingResult :=
  match currentState.proposedDate with
  | none => startBookingFlow service language
  | some pd =>
    let vagueStep : BookingResult :=
      match mapVagueTimeToRange messageText with
      | some (sh, eh) =>
        let duration := getServiceDuration catalog service
        let slots := cal.findAvailableSlots calSt (pd.fdiv 1440) duration (sh : Int) (eh : Int)
        if !slots.isEmpty then ⟨"suggest_slots", none, some (slots.take 2), currentState⟩
        else ⟨"ask_time", none, none, currentState⟩
      | none => ⟨"ask_time", none, none, currentState⟩
    match parseTimePreference messageText with
    | some (hour, minute) =>
      let proposed := (pd.fdiv 1440) * 1440 + (hour : Int) * 60 + (minute : Int)
      let duration := getServiceDuration catalog service
      let endDt := proposed + (duration + bufferMinutes)
      if cal.checkAvailability calSt proposed endDt then
        ⟨"confirm", none, some [proposed],
          { status := "confirming", proposedDate := some pd, proposedTime := some proposed,
            serviceKey := service }⟩
      else
        let slots := cal.findAvailableSlots calSt (pd.fdiv 1440) duration
          ((hour : Int) - 1) ((hour : Int) + 2)
        if !slots.isEmpty then ⟨"suggest_slots", none, some (slots.take 2), currentState⟩
        else vagueStep
    | none => vagueStep

/-- `BookingUseCase._confirm_booking` (lines 242-294): a calendar exception is
caught and degraded to an `unavailable` result with the state unchanged. -/
def confirmBooking {σ : Type} (cal : CalendarPort σ) (calSt : σ) (catalog : Catalog)
    (bufferMinutes : Int) (currentState : BookingState) (service : Option String)
    (_language : String) : BookingResult × σ :=
  match currentState.proposedTime with
  | none => (⟨"reset", none, none, {}⟩, calSt)
  | some pt =>
    let duration := getServiceDuration catalog service
    let endTime := pt + (duration + bufferMinutes)
    let serviceName :=
      match service with
      | some s =>
        if s ≠ "" then
          match catalogGetService catalog s with
          | some e => e.displayName
          | none => s
        else "appointment"
      | none => "appointment"
    match cal.createEvent calSt pt endTime (serviceName ++ " Appointment")
        ("Service: " ++ serviceName) with
    | .ok (eventId, calSt') =>
      (⟨"booked", none, none,
        { status := "confirmed", proposedDate := currentState.proposedDate,
          proposedTime := currentState.proposedTime, serviceKey := service,
          calendarEventId := some eventId, eventId := some eventId }⟩, calSt')
    | .error _ => (⟨"unavailable", none, none, currentState⟩, calSt)

/-- `BookingUseCase.process_booking_intent` (lines 44-111). -/
def processBookingIntent {σ : Type} (cal : CalendarPort σ) (calSt : σ)
    (catalog : Catalog) (bufferMinutes today : Int) (messageText : String)
    (currentState : BookingState) (service : Option String) (language : String)
    (conversationState : Option ConversationState) : Except PyErr (BookingResult × σ) :=
  let normalizedText := pyStrip (pyLower messageText)
  let resolvedService :=
    pyOrS service (pyOrS currentState.serviceKey
      (pyOrS (match conversationState with
        | some c => c.lastService
        | none => none)
        (match conversationState with
         | some c => c.selectionState.selectedServiceKey
         | none => none)))
  if currentState.status = "none" then
    if !optTruthy resolvedService then
      .ok (⟨"ask_service", none, none, { status := "collecting_service" }⟩, calSt)
    else .ok (startBookingFlow resolvedService language, calSt)
  else if currentState.status = "collecting_service" then
    if !optTruthy resolvedService then
      .ok (⟨"ask_service", none, none, currentState⟩, calSt)
    else .ok (startBookingFlow resolvedService language, calSt)
  else if currentState.status = "collecting_date" then
    (processDateInput cal calSt catalog today messageText currentState resolvedService
      language).map (fun r => (r, calSt))
  else if currentState.status = "collecting_time" then
    .ok (processTimeInput cal calSt catalog bufferMinutes messageText currentState
      resolvedService language, calSt)
  else if currentState.status = "confirming" then
    if isConfirmation normalizedText then
      .ok (confirmBooking cal calSt catalog bufferMinutes currentState resolvedService language)
    else
      .ok (⟨"confirm", none,
        (match currentState.proposedTime with
         | some t => some [t]
         | none => none), currentState⟩, calSt)
  else .ok (⟨"reset", none, none, {}⟩, calSt)

/-! ### Timezone-local days

`datetime.fromtimestamp(ts, tz)` comparisons are modelled with a fixed
offset (seconds east of UTC): two timestamps fall on the same local calendar
day iff their offset-shifted floor-days agree, and local midnight of the day
containing `ts` is `localDayStart`. -/

def localDay (tzOffset ts : Int) : Int := (ts + tzOffset) / 86400

def localDayStart (tzOffset ts : Int) : Int := localDay tzOffset ts * 86400 - tzOffset

/-- Python dict update (`m[k] = v`): lookups afterwards see `v`. -/
def assocSet {α : Type} (m : List (String × α)) (k : String) (v : α) :
    List (String × α) :=
  (k, v) :: m.filter (fun p => p.1 ≠ k)

/-! ### In-memory conversation store (infrastructure/store/memory_store.py)

The `_threads` history, `_states` and `_history_limit` members are omitted:
they are not read by any operation verified here. -/

structure MemoryStore where
  processed : List String := []
  lastGreetedAt : List (String × Int) := []
  lastReceivedMessageAt : List (String × Int) := []
  pendingMessageId : List (String × String) := []
  lastOutboundTs : List (String × Int) := []
deriving DecidableEq

/-- `has_processed` (lines 37-38). -/
def memHasProcessed (s : MemoryStore) (messageId : String) : Bool :=
  s.processed.contains messageId

/-- `mark_processed` (lines 40-41): `set.add`. -/
def memMarkProcessed (s : MemoryStore) (messageId : String) : MemoryStore :=
  if s.processed.contains messageId then s
  else { s with processed := messageId :: s.processed }

/-- `should_greet_today` (lines 61-72). -/
def memShouldGreetToday (s : MemoryStore) (tzOffset : Int) (threadId : String)
    (nowTs : Int) : Bool :=
  match lookupAssoc s.lastGreetedAt threadId with
  | none => true
  | some lastGreetedTs => localDay tzOffset lastGreetedTs ≠ localDay tzOffset nowTs

/-- `mark_greeted` (lines 74-76). -/
def memMarkGreeted (s : MemoryStore) (threadId : String) (timestamp : Int) :
    MemoryStore :=
  { s with lastGreetedAt := assocSet s.lastGreetedAt threadId timestamp }

/-- `mark_outbound` (lines 58-59). -/
def memMarkOutbound (s : MemoryStore) (threadId : String) (timestamp : Int) :
    MemoryStore :=
  { s with lastOutboundTs := assocSet s.lastOutboundTs threadId timestamp }

/-- `should_process_message` (lines 78-100). -/
def memShouldProcessMessage (s : MemoryStore) (threadId : String)
    (_messageId : String) (cooldownSeconds nowTs : Int) : Bool × Option String :=
  let pendingId := lookupAssoc s.pendingMessageId threadId
  match lookupAssoc s.lastReceivedMessageAt threadId with
  | none => (true, none)
  | some lastReceivedTs =>
    if nowTs - lastReceivedTs < cooldownSeconds then (false, pendingId)
    else (true, none)

/-- `mark_message_received` (lines 102-105). -/
def memMarkMessageReceived (s : MemoryStore) (threadId messageId : String)
    (timestamp : Int) : MemoryStore :=
  { s with
    lastReceivedMessageAt := assocSet s.lastReceivedMessageAt threadId timestamp,
    pendingMessageId := assocSet s.pendingMessageId threadId messageId }

/-! ### JSON-file conversation store (infrastructure/store/json_store.py)

The per-thread files are an association list keyed by thread id; message
history and the serialization round-trip are omitted (not read by the
operations verified here). -/

structure JsonThreadData where
  state : ConversationState := {}
  processedMessageIds : List String := []
  debounceLastMessageId : Option String := none
  debounceLastReceivedAt : Option Int := none
deriving DecidableEq

abbrev JsonStore := List (String × JsonThreadData)

/-- `_load_thread_data` (lines 35-66): defaults for a missing file. -/
def jsonLoadThreadData (fs : JsonStore) (threadId : String) : JsonThreadData :=
  (lookupAssoc fs threadId).getD {}

/-- `_save_thread_data` (lines 68-86): atomic per-thread replacement. -/
def jsonSaveThreadData (fs : JsonStore) (threadId : String) (d : JsonThreadData) :
    JsonStore :=
  assocSet fs threadId d

/-- `has_processed` (lines 244-256): scans every thread file. -/
def jsonHasProcessed (fs : JsonStore) (messageId : String) : Bool :=
  fs.any (fun p => p.2.processedMessageIds.contains messageId)

/-- `mark_processed` (lines 258-263): a deliberate no-op (the source comment
says tracking happens in `mark_message_received`). -/
def jsonMarkProcessed (fs : JsonStore) (_messageId : String) : JsonStore := fs

/-- `mark_message_received` (lines 424-440): updates the debounce record and
appends to the (last-1000-capped) processed-id list. -/
def jsonMarkMessageReceived (fs : JsonStore) (threadId messageId : String)
    (timestamp : Int) : JsonStore :=
  let d := jsonLoadThreadData fs threadId
  let processed :=
    if d.processedMessageIds.contains messageId then d.processedMessageIds
    else
      let appended := d.processedMessageIds ++ [messageId]
      if appended.length > 1000 then appended.drop (appended.length - 1000)
      else appended
  jsonSaveThreadData fs threadId
    { d with
      debounceLastMessageId := some messageId,
      debounceLastReceivedAt := some timestamp,
      processedMessageIds := processed }

def jsonGetState (fs : JsonStore) (threadId : String) : ConversationState :=
  (jsonLoadThreadData fs threadId).state

/-- `mark_greeted` (lines 367-398): rebuilds the state with `greeted_at`. -/
def jsonMarkGreeted (fs : JsonStore) (threadId : String) (timestamp : Int) :
    JsonStore :=
  let d := jsonLoadThreadData fs threadId
  jsonSaveThreadData fs threadId
    { d with state := { d.state with greetedAt := some timestamp } }

/-- `should_greet_today` (lines 329-365): compares `greeted_at` against
today's local midnight. -/
def jsonShouldGreetToday (fs : JsonStore) (tzOffset : Int) (threadId : String)
    (nowTs : Int) : Bool :=
  let todayStartTs := localDayStart tzOffset nowTs
  match (jsonGetState fs threadId).greetedAt with
  | none => true
  | some greetedAt => greetedAt < todayStartTs

/-! ### Orchestrator fragments (application/use_cases/handle_incoming_message.py) -/

/-- `is_follow_up` (application/utils/greeting.py, lines 8-20). -/
def isFollowUp (text : String) : Bool :=
  let normalized :=
    String.intercalate " " ((splitWs (pyLower text).data).map (fun w => (⟨w⟩ : String)))
  ["thanks", "thank you", "ok", "okay", "yes", "yep", "👍", "🙏"].contains normalized

/-- The intake gate of `HandleIncomingMessageUseCase.handle` (lines 72-95)
against the in-memory store: the duplicate check, the debounce check with
`cooldown_seconds=3.0` and `now_ts` captured once, then — only when
processing proceeds — `mark_message_received` and `mark_processed`.
Returns (proceed, coalesced-with, resulting store). -/
def handleIntake (s : MemoryStore) (threadId messageId : String) (nowTs : Int) :
    Bool × Option String × MemoryStore :=
  if memHasProcessed s messageId then (false, none, s)
  else
    let sp := memShouldProcessMessage s threadId messageId 3 nowTs
    if !sp.1 then (false, sp.2, s)
    else
      let s1 := memMarkMessageReceived s threadId messageId nowTs
      let s2 := memMarkProcessed s1 messageId
      (true, none, s2)

/-- The two greeting evaluations of the normal (non-booking) flow of
`handle`: lines 439-478 (first evaluation against the context flags, using
the `now_ts` captured at line 78, marking the thread greeted on success) and
lines 687-692 (the re-initialised second evaluation against the
classification language and `is_follow_up(message.text)`, with `now_ts`
re-derived).  The second result is the `greeting_applicable` passed to the
composer at line 706.  Returns (first result, composer flag, final store). -/
def handleNormalFlowGreeting (s : MemoryStore) (tzOffset : Int) (threadId : String)
    (ctxResolvedLanguage : String) (ctxIsFollowUp : Bool)
    (classificationLanguage messageText : String) (t1 t2 : Int) :
    Bool × Bool × MemoryStore :=
  let ga1 := (ctxResolvedLanguage = "en" || ctxResolvedLanguage = "es") &&
    !ctxIsFollowUp && memShouldGreetToday s tzOffset threadId t1
  let s1 := if ga1 then memMarkGreeted s threadId t1 else s
  let ga2 := (classificationLanguage = "en" || classificationLanguage = "es") &&
    !isFollowUp messageText && memShouldGreetToday s1 tzOffset threadId t2
  let s2 := if ga2 then memMarkGreeted s1 threadId t2 else s1
  (ga1, ga2, s2)

/-! ### Helper lemmas on the store models -/

theorem lookupAssoc_assocSet_self {α : Type} (m : List (String × α)) (k : String)
    (v : α) : lookupAssoc (assocSet m k v) k = some v := by
  simp [lookupAssoc, assocSet, List.find?]

theorem memShouldGreet_after_mark (s : MemoryStore) (off : Int) (tid : String)
    (ts t' : Int) :
    memShouldGreetToday (memMarkGreeted s tid ts) off tid t' =
      decide (localDay off ts ≠ localDay off t') := by
  simp [memShouldGreetToday, memMarkGreeted, lookupAssoc_assocSet_self]

theorem jsonGreeted_after_mark (fs : JsonStore) (tid : String) (ts : Int) :
    (jsonGetState (jsonMarkGreeted fs tid ts) tid).greetedAt = some ts := by
  simp [jsonGetState, jsonMarkGreeted, jsonLoadThreadData, jsonSaveThreadData,
    lookupAssoc_assocSet_self]

theorem localDay_bounds (off ts : Int) :
    localDay off ts * 86400 ≤ ts + off ∧ ts + off < localDay off ts * 86400 + 86400 := by
  unfold localDay
  omega

/-! ### C6 — debounce record update -/

/-- Claim C6 counterexample: thread "t" receives "m1" at t=0 (processed) and
"m2" at t=1 (within the 3 s cooldown, so coalesced).  After the second
message the debounce record still holds "m1" at time 0 — `mark_message_received`
runs only *after* a message passes the debounce check, not unconditionally
before it, contradicting the claim that the record then holds "m2" at its
arrival time. -/
theorem debounce_markReceived_counterexample :
    (handleIntake (handleIntake {} "t" "m1" 0).2.2 "t" "m2" 1).1 = false ∧
    lookupAssoc (handleIntake (handleIntake {} "t" "m1" 0).2.2 "t" "m2" 1).2.2.pendingMessageId
      "t" = some "m1" ∧
    lookupAssoc (handleIntake (handleIntake {} "t" "m1" 0).2.2 "t" "m2" 1).2.2.lastReceivedMessageAt
      "t" = some 0 ∧
    ¬ ((some "m1" : Option String) = some "m2" ∧ (some 0 : Option Int) = some 1) := by
  decide

/-- Claim C6 (amended): the intake gate updates the per-thread debounce
record (and the processed set) only when the message passes the duplicate
and debounce checks; a coalesced or duplicate message leaves the store
entirely unchanged. -/
theorem debounce_markReceived_amended (s : MemoryStore) (threadId messageId : String)
    (nowTs : Int) :
    ((handleIntake s threadId messageId nowTs).1 = true →
      lookupAssoc (handleIntake s threadId messageId nowTs).2.2.lastReceivedMessageAt
        threadId = some nowTs ∧
      lookupAssoc (handleIntake s threadId messageId nowTs).2.2.pendingMessageId
        threadId = some messageId ∧
      memHasProcessed (handleIntake s threadId messageId nowTs).2.2 messageId = true) ∧
    ((handleIntake s threadId messageId nowTs).1 = false →
      (handleIntake s threadId messageId nowTs).2.2 = s) := by
  unfold handleIntake
  split
  · exact ⟨fun h => by simp at h, fun _ => rfl⟩
  · by_cases hsp : (memShouldProcessMessage s threadId messageId 3 nowTs).1
    · simp only [hsp, Bool.not_true, if_neg (by simp : ¬ (false = true))]
      refine ⟨fun _ => ⟨?_, ?_, ?_⟩, fun h => by simp at h⟩
      · unfold memMarkProcessed
        split <;> simp [memMarkMessageReceived, lookupAssoc_assocSet_self]
      · unfold memMarkProcessed
        split <;> simp [memMarkMessageReceived, lookupAssoc_assocSet_self]
      · unfold memHasProcessed memMarkProcessed
        split
        · assumption
        · simp
    · simp only [hsp, Bool.not_false, if_pos rfl]
      exact ⟨fun h => by simp at h, fun _ => rfl⟩

/-- Closed instance of the amended C6 theorem: both the proceed branch (the
record is updated) and the coalesce branch (the store is untouched) at
concrete inputs. -/
theorem debounce_markReceived_amended_witness :
    (lookupAssoc (handleIntake {} "t" "m" 0).2.2.lastReceivedMessageAt "t" = some 0 ∧
     lookupAssoc (handleIntake {} "t" "m" 0).2.2.pendingMessageId "t" = some "m" ∧
     memHasProcessed (handleIntake {} "t" "m" 0).2.2 "m" = true) ∧
    (handleIntake (handleIntake {} "t" "m" 0).2.2 "t" "m2" 1).2.2 =
      (handleIntake {} "t" "m" 0).2.2 :=
  ⟨(debounce_markReceived_amended {} "t" "m" 0).1 (by decide),
   (debounce_markReceived_amended (handleIntake {} "t" "m" 0).2.2 "t" "m2" 1).2 (by decide)⟩

/-! ### C7 — idempotent processed-id marking -/

/-- Claim C7 counterexample: on a fresh JSON-file store, `mark_processed("m1")`
alone does not make `has_processed("m1")` true — the JSON store's
`mark_processed` is a no-op. -/
theorem markProcessed_json_counterexample :
    jsonHasProcessed (jsonMarkProcessed ([] : JsonStore) "m1") "m1" = false := by
  decide

/-- Claim C7 (amended): `has_processed` is true after `mark_processed` for the
in-memory store; for the JSON store `mark_processed` leaves the store
unchanged (a no-op), and a message id becomes visible to `has_processed`
through `mark_message_received` instead. -/
theorem markProcessed_amended (s : MemoryStore) (fs : JsonStore)
    (threadId messageId : String) (ts : Int) :
    memHasProcessed (memMarkProcessed s messageId) messageId = true ∧
    jsonMarkProcessed fs messageId = fs ∧
    jsonHasProcessed (jsonMarkMessageReceived fs threadId messageId ts) messageId = true := by
  refine ⟨?_, rfl, ?_⟩
  · unfold memHasProcessed memMarkProcessed
    split
    · assumption
    · simp
  · unfold jsonHasProcessed jsonMarkMessageReceived jsonSaveThreadData assocSet
    simp only [List.any_cons, Bool.or_eq_true]
    left
    split
    · assumption
    · split
      · next h _ =>
        have hk : (jsonLoadThreadData fs threadId).processedMessageIds.length + 1 - 1000 ≤
            (jsonLoadThreadData fs threadId).processedMessageIds.length := by omega
        rw [List.length_append, List.length_singleton,
          List.drop_append_of_le_length hk]
        simp
      · simp

/-! ### C9 — greeting once per local day -/

/-- Claim C9 counterexample: `should_greet_today` has no side effect, so on a
fresh store two successive same-day checks with no `mark_greeted` in between
*both* return true (at t=0 and t=100 with offset 0), contradicting
"true exactly once … and false for any subsequent check the same day". -/
theorem shouldGreetToday_counterexample :
    memShouldGreetToday {} 0 "t" 0 = true ∧
    memShouldGreetToday {} 0 "t" 100 = true ∧
    localDay 0 0 = localDay 0 100 := by
  decide

/-- Claim C9 (amended): for both store implementations, `should_greet_today`
is true on every check before any `mark_greeted` for the thread (the check
itself does not mark); after `mark_greeted(ts)` it is false for every check
on the same local day as `ts` and true again on any strictly later local
day. -/
theorem shouldGreetToday_amended (off : Int) (s : MemoryStore) (fs : JsonStore)
    (tid : String) (ts t t' : Int) :
    (lookupAssoc s.lastGreetedAt tid = none → memShouldGreetToday s off tid t = true) ∧
    (localDay off ts = localDay off t' →
      memShouldGreetToday (memMarkGreeted s tid ts) off tid t' = false) ∧
    (localDay off ts < localDay off t' →
      memShouldGreetToday (memMarkGreeted s tid ts) off tid t' = true) ∧
    ((jsonGetState fs tid).greetedAt = none → jsonShouldGreetToday fs off tid t = true) ∧
    (localDay off ts = localDay off t' →
      jsonShouldGreetToday (jsonMarkGreeted fs tid ts) off tid t' = false) ∧
    (localDay off ts < localDay off t' →
      jsonShouldGreetToday (jsonMarkGreeted fs tid ts) off tid t' = true) := by
  refine ⟨?_, ?_, ?_, ?_, ?_, ?_⟩
  · intro h
    simp [memShouldGreetToday, h]
  · intro h
    rw [memShouldGreet_after_mark]
    simp [h]
  · intro h
    rw [memShouldGreet_after_mark]
    simp
    omega
  · intro h
    simp [jsonShouldGreetToday, h]
  · intro h
    have hb1 := localDay_bounds off ts
    have hb2 := localDay_bounds off t'
    simp only [jsonShouldGreetToday, jsonGreeted_after_mark, localDayStart,
      decide_eq_false_iff_not, not_lt]
    omega
  · intro h
    have hb1 := localDay_bounds off ts
    have hb2 := localDay_bounds off t'
    simp only [jsonShouldGreetToday, jsonGreeted_after_mark, localDayStart,
      decide_eq_true_eq]
    omega

/-- Closed instance of the amended C9 theorem: fresh stores greet, marking at
t=50 suppresses a check at t=100 the same day, and a check at t=90000 (the
next local day, offset 0) greets again — for both stores. -/
theorem shouldGreetToday_amended_witness :
    (memShouldGreetToday {} 0 "t" 7 = true ∧
     memShouldGreetToday (memMarkGreeted {} "t" 50) 0 "t" 100 = false ∧
     memShouldGreetToday (memMarkGreeted {} "t" 50) 0 "t" 90000 = true) ∧
    (jsonShouldGreetToday [] 0 "t" 7 = true ∧
     jsonShouldGreetToday (jsonMarkGreeted [] "t" 50) 0 "t" 100 = false ∧
     jsonShouldGreetToday (jsonMarkGreeted [] "t" 50) 0 "t" 90000 = true) := by
  have h := shouldGreetToday_amended 0 {} [] "t" 50 7 100
  have h2 := shouldGreetToday_amended 0 {} [] "t" 50 7 90000
  exact ⟨⟨h.1 (by decide), h.2.1 (by decide), h2.2.2.1 (by decide)⟩,
    ⟨h.2.2.2.1 (by decide), h.2.2.2.2.1 (by decide), h2.2.2.2.2.2 (by decide)⟩⟩

/-! ### C10 — the greeting is consumed by the double evaluation -/

/-- Claim C10: in the normal flow, when the first greeting evaluation
succeeds (and the two `now_ts` derivations fall on the same local day), the
thread is marked greeted immediately, so the second evaluation — the only
one passed to the composer — is false: the reply is composed with
`greeting_applicable = false` while the day's greeting is consumed
(`greeted_at` records the first timestamp). -/
theorem greeting_double_eval_consumed (s : MemoryStore) (off : Int)
    (tid ctxLang : String) (ctxFU : Bool) (clsLang msgText : String) (t1 t2 : Int)
    (h1 : (handleNormalFlowGreeting s off tid ctxLang ctxFU clsLang msgText t1 t2).1 = true)
    (hday : localDay off t1 = localDay off t2) :
    (handleNormalFlowGreeting s off tid ctxLang ctxFU clsLang msgText t1 t2).2.1 = false ∧
    lookupAssoc
      (handleNormalFlowGreeting s off tid ctxLang ctxFU clsLang msgText t1 t2).2.2.lastGreetedAt
      tid = some t1 := by
  unfold handleNormalFlowGreeting at h1 ⊢
  simp only at h1
  simp only [h1, if_true, memShouldGreet_after_mark, hday]
  constructor
  · simp
  · simp [memMarkGreeted, lookupAssoc_assocSet_self]

/-- Closed instance of the C10 theorem at concrete inputs. -/
theorem greeting_double_eval_consumed_witness :
    (handleNormalFlowGreeting {} 0 "t" "en" false "en" "hello there" 10 20).2.1 = false ∧
    lookupAssoc
      (handleNormalFlowGreeting {} 0 "t" "en" false "en" "hello there" 10 20).2.2.lastGreetedAt
      "t" = some 10 :=
  greeting_double_eval_consumed {} 0 "t" "en" false "en" "hello there" 10 20
    (by decide) (by decide)

/-! ### C3 — single available slot crashes the date step -/

/-- A calendar stub reporting exactly one available slot. -/
def oneSlotCalendar : CalendarPort Unit :=
  ⟨fun _ _ _ => true, fun _ _ _ _ _ => [540], fun _ _ _ _ _ => .ok ("evt", ())⟩

/-- A calendar stub reporting exactly two available slots. -/
def twoSlotCalendar : CalendarPort Unit :=
  ⟨fun _ _ _ => true, fun _ _ _ _ _ => [540, 570], fun _ _ _ _ _ => .ok ("evt", ())⟩

/-- Claim C3, evaluated at the failing input: in `collecting_date` with the
parseable preference "tomorrow", a calendar returning exactly one slot makes
`process_booking_intent` raise `TypeError` (the single-slot branch constructs
`BookingState(..., service=service)`, a keyword the frozen dataclass does not
have) instead of returning `suggest_slots`; with two slots the transition the
claim describes does happen. -/
theorem booking_single_slot_type_error :
    processBookingIntent oneSlotCalendar () [] 15 100 "tomorrow"
      { status := "collecting_date", serviceKey := some "laser hair removal" }
      none "en" none =
      .error (.typeError "__init__() got an unexpected keyword argument 'service'") ∧
    processBookingIntent twoSlotCalendar () [] 15 100 "tomorrow"
      { status := "collecting_date", serviceKey := some "laser hair removal" }
      none "en" none =
      .ok (⟨"suggest_slots", none, some [540, 570],
        { status := "collecting_time", proposedDate := some (101 * 1440),
          serviceKey := some "laser hair removal" }⟩, ()) :=
  ⟨rfl, rfl⟩

/-! ### C5 — scripted booking progression -/

theorem mockFindSlots_two (day d : Int) (h2 : d ≤ 450) :
    ∃ rest, mockFindAvailableSlots [] day d 9 17 =
      (day * 1440 + 540) :: (day * 1440 + 570) :: rest := by
  unfold mockFindAvailableSlots
  dsimp only
  obtain ⟨m, hm⟩ : ∃ m,
      (day * 1440 + 17 * 60 - d - (day * 1440 + 9 * 60)).toNat + 1 = m + 1 + 1 := by
    refine ⟨(day * 1440 + 17 * 60 - d - (day * 1440 + 9 * 60)).toNat - 1, ?_⟩
    omega
  rw [hm]
  have c1 : day * 1440 + 9 * 60 + d ≤ day * 1440 + 17 * 60 := by omega
  have c2 : day * 1440 + 9 * 60 + 30 + d ≤ day * 1440 + 17 * 60 := by omega
  simp only [mockFindSlotsGo, mockCheckAvailability, List.all_nil, if_pos c1, if_pos c2,
    if_true, List.singleton_append, List.take_succ_cons]
  refine ⟨List.take 8 (mockFindSlotsGo [] d (day * 1440 + 17 * 60) m
    (day * 1440 + 9 * 60 + 30 + 30)), ?_⟩
  norm_num
  omega

theorem bookingScriptStep1 (catalog : Catalog) (k : String) (today : Int) (hk : k ≠ "") :
    processBookingIntent mockCalendar [] catalog 15 today "book a laser session" {}
      (some k) "en" none =
      .ok (⟨"ask_date", none, none,
        { status := "collecting_date", serviceKey := some k }⟩, []) := by
  unfold processBookingIntent
  simp [pyOrS, if_neg hk, optTruthy, hk, startBookingFlow]

theorem bookingScriptStep2 (catalog : Catalog) (k : String) (today : Int) (hk : k ≠ "")
    (h2 : getServiceDuration catalog (some k) ≤ 450) :
    processBookingIntent mockCalendar [] catalog 15 today "tomorrow"
      { status := "collecting_date", serviceKey := some k } none "en" none =
      .ok (⟨"suggest_slots", none,
        some [(today + 1) * 1440 + 540, (today + 1) * 1440 + 570],
        { status := "collecting_time", proposedDate := some ((today + 1) * 1440),
          serviceKey := some k }⟩, []) := by
  obtain ⟨rest, hslots⟩ :=
    mockFindSlots_two (today + 1) (getServiceDuration catalog (some k)) h2
  unfold processBookingIntent
  simp only [pyOrS, if_neg hk]
  simp only [String.reduceEq, if_false, if_true, reduceIte]
  unfold processDateInput
  rw [show parseDatePreference "tomorrow" today = some (today + 1) from rfl]
  dsimp only [mockCalendar]
  rw [hslots]
  simp [Except.map]

theorem bookingScriptStep3 (catalog : Catalog) (k : String) (today : Int) (hk : k ≠ "") :
    processBookingIntent mockCalendar [] catalog 15 today "2pm"
      { status := "collecting_time", proposedDate := some ((today + 1) * 1440),
        serviceKey := some k } none "en" none =
      .ok (⟨"confirm", none, some [(today + 1) * 1440 + 840],
        { status := "confirming", proposedDate := some ((today + 1) * 1440),
          proposedTime := some ((today + 1) * 1440 + 840), serviceKey := some k }⟩, []) := by
  unfold processBookingIntent
  simp only [String.reduceEq, if_false, if_true, reduceIte]
  unfold processTimeInput
  rw [show parseTimePreference "2pm" = some (14, 0) from rfl]
  dsimp only [mockCalendar]
  have hfd : Int.fdiv ((today + 1) * 1440) 1440 = today + 1 :=
    Int.mul_fdiv_cancel _ (by norm_num)
  simp only [hfd, mockCheckAvailability, List.all_nil, if_true]
  simp [pyOrS, if_neg hk]

theorem bookingScriptStep4 (catalog : Catalog) (k : String) (today : Int) (hk : k ≠ "") :
    processBookingIntent mockCalendar [] catalog 15 today "yes"
      { status := "confirming", proposedDate := some ((today + 1) * 1440),
        proposedTime := some ((today + 1) * 1440 + 840), serviceKey := some k }
      none "en" none =
      .ok (⟨"booked", none, none,
        { status := "confirmed", proposedDate := some ((today + 1) * 1440),
          proposedTime := some ((today + 1) * 1440 + 840), serviceKey := some k,
          calendarEventId := some "mock_event_1", eventId := some "mock_event_1" }⟩,
        [("mock_event_1", (today + 1) * 1440 + 840,
          (today + 1) * 1440 + 840 + (getServiceDuration catalog (some k) + 15))]) := by
  unfold processBookingIntent
  simp only [String.reduceEq, if_false, if_true, reduceIte]
  rw [show isConfirmation (pyStrip (pyLower "yes")) = true from rfl]
  simp only [if_true]
  unfold confirmBooking
  dsimp only [mockCalendar, mockCreateEvent]
  rw [show ("mock_event_" ++ natToStr ([].length + 1)) = "mock_event_1" from rfl]
  simp [pyOrS, if_neg hk]

/-- Claim C5: from `none` with a resolved service `k` (any key whose catalog
duration fits the mock calendar's 9-17 working day, i.e. ≤ 450 minutes), the
scripted inputs "book a laser session" → "tomorrow" → "2pm" → "yes" — each
returned `updated_state` threaded into the next call against the mock
calendar with no prior events — produce the action tags
ask_date/suggest_slots/confirm/booked in order and end in status `confirmed`
with a non-null calendar event id. -/
theorem booking_scripted_progression (catalog : Catalog) (k : String) (today : Int)
    (hk : k ≠ "") (h2 : getServiceDuration catalog (some k) ≤ 450) :
    ∃ (r1 r2 r3 r4 : BookingResult) (c1 c2 c3 c4 : MockCalEvents),
      processBookingIntent mockCalendar [] catalog 15 today "book a laser session" {}
        (some k) "en" none = .ok (r1, c1) ∧
      processBookingIntent mockCalendar c1 catalog 15 today "tomorrow" r1.updatedState
        none "en" none = .ok (r2, c2) ∧
      processBookingIntent mockCalendar c2 catalog 15 today "2pm" r2.updatedState
        none "en" none = .ok (r3, c3) ∧
      processBookingIntent mockCalendar c3 catalog 15 today "yes" r3.updatedState
        none "en" none = .ok (r4, c4) ∧
      (r1.action = "ask_date" ∨ r1.action = "ask_time") ∧ r2.action = "suggest_slots" ∧
      r3.action = "confirm" ∧ r4.action = "booked" ∧
      r4.updatedState.status = "confirmed" ∧ r4.updatedState.calendarEventId ≠ none := by
  refine ⟨_, _, _, _, [], [], [],
    [("mock_event_1", (today + 1) * 1440 + 840,
      (today + 1) * 1440 + 840 + (getServiceDuration catalog (some k) + 15))],
    bookingScriptStep1 catalog k today hk,
    bookingScriptStep2 catalog k today hk h2,
    bookingScriptStep3 catalog k today hk,
    bookingScriptStep4 catalog k today hk,
    Or.inl rfl, rfl, rfl, rfl, rfl, by simp⟩

/-- Closed instance of the C5 theorem: a concrete 60-minute laser service on
day 20000. -/
theorem booking_scripted_progression_witness :
    ∃ (r1 r2 r3 r4 : BookingResult) (c1 c2 c3 c4 : MockCalEvents),
      processBookingIntent mockCalendar []
        [("laser hair removal",
          ⟨"laser hair removal", "Laser Hair Removal", "laser", some 150, none, 60, none, none⟩)]
        15 20000 "book a laser session" {} (some "laser hair removal") "en" none =
        .ok (r1, c1) ∧
      processBookingIntent mockCalendar c1
        [("laser hair removal",
          ⟨"laser hair removal", "Laser Hair Removal", "laser", some 150, none, 60, none, none⟩)]
        15 20000 "tomorrow" r1.updatedState none "en" none = .ok (r2, c2) ∧
      processBookingIntent mockCalendar c2
        [("laser hair removal",
          ⟨"laser hair removal", "Laser Hair Removal", "laser", some 150, none, 60, none, none⟩)]
        15 20000 "2pm" r2.updatedState none "en" none = .ok (r3, c3) ∧
      processBookingIntent mockCalendar c3
        [("laser hair removal",
          ⟨"laser hair removal", "Laser Hair Removal", "laser", some 150, none, 60, none, none⟩)]
        15 20000 "yes" r3.updatedState none "en" none = .ok (r4, c4) ∧
      (r1.action = "ask_date" ∨ r1.action = "ask_time") ∧ r2.action = "suggest_slots" ∧
      r3.action = "confirm" ∧ r4.action = "booked" ∧
      r4.updatedState.status = "confirmed" ∧ r4.updatedState.calendarEventId ≠ none :=
  booking_scripted_progression
    [("laser hair removal",
      ⟨"laser hair removal", "Laser Hair Removal", "laser", some 150, none, 60, none, none⟩)]
    "laser hair removal" 20000 (by decide) (by decide)

/-! ### C8 — calendar failure during confirmation -/

/-- Claim C8: in `confirming` with a proposed time, when the user affirms and
the calendar's `create_event` raises, `process_booking_intent` returns
normally with action "unavailable", the booking state exactly the pre-call
state (no transition to `confirmed`, no event id recorded), and the calendar
state untouched. -/
theorem booking_confirm_calendar_failure {σ : Type} (cal : CalendarPort σ) (calSt : σ)
    (catalog : Catalog) (bufferMinutes today : Int) (messageText : String)
    (st : BookingState) (service : Option String) (language : String)
    (convSt : Option ConversationState) (pt : Int) (emsg : String)
    (hstatus : st.status = "confirming")
    (hpt : st.proposedTime = some pt)
    (hconf : isConfirmation (pyStrip (pyLower messageText)) = true)
    (hfail : ∀ startT endT title desc,
      cal.createEvent calSt startT endT title desc = .error emsg) :
    processBookingIntent cal calSt catalog bufferMinutes today messageText st service
      language convSt = .ok (⟨"unavailable", none, none, st⟩, calSt) := by
  unfold processBookingIntent
  rw [hstatus]
  simp only [String.reduceEq, if_false, if_true, reduceIte, hconf]
  unfold confirmBooking
  rw [hpt]
  dsimp only
  rw [hfail]

/-- A calendar stub whose `create_event` always raises. -/
def failingCalendar : CalendarPort Unit :=
  ⟨fun _ _ _ => true, fun _ _ _ _ _ => [], fun _ _ _ _ _ => .error "HTTP 500"⟩

/-- Closed instance of the C8 theorem. -/
theorem booking_confirm_calendar_failure_witness :
    processBookingIntent failingCalendar () [] 15 100 "yes"
      { status := "confirming", proposedDate := some 1440, proposedTime := some 2000,
        serviceKey := some "laser" } none "en" none =
      .ok (⟨"unavailable", none, none,
        { status := "confirming", proposedDate := some 1440, proposedTime := some 2000,
          serviceKey := some "laser" }⟩, ()) :=
  booking_confirm_calendar_failure failingCalendar () [] 15 100 "yes"
    { status := "confirming", proposedDate := some 1440, proposedTime := some 2000,
      serviceKey := some "laser" } none "en" none 2000 "HTTP 500"
    rfl rfl (by decide) (fun _ _ _ _ => rfl)

/-! ### Composition result shape

`compose_shape` characterises every return path of `ReplyComposer.compose`:
either the fixed services-list fallback with a non-empty failure reason, one
of the two missing-content empty replies, or a success whose text passed all
the whole-reply validators (and, off the canonical/booking short-circuits,
the pricing checks). -/

theorem str_append_ne_empty (s t : String) (h : s.data ≠ []) : s ++ t ≠ "" := by
  intro hc
  apply h
  have h2 : (s ++ t).data = ([] : List Char) := by rw [hc]
  rw [String.data_append] at h2
  exact (List.append_eq_nil.mp h2).1

theorem str_append3_ne_empty (s t u : String) (h : s.data ≠ []) : s ++ t ++ u ≠ "" := by
  refine str_append_ne_empty (s ++ t) u ?_
  rw [String.data_append]
  intro hc
  exact h (List.append_eq_nil.mp hc).1

theorem validateReply_elim (t l : String) (c : Bool)
    (h : (validateReply t l c).1 = true) :
    containsSub t "—" = false ∧ findBannedWord t = none ∧
    (c = false → hasDisallowedEmoji t = false) ∧ ctaCount t ≤ 1 ∧
    (validateNoSystemLanguage t).1 = true := by
  unfold validateReply at h
  split at h
  · simp at h
  · next hdash =>
    split at h
    · simp at h
    · next hb =>
      split at h
      · simp at h
      · next hem =>
        split at h
        · simp at h
        · next hcta =>
          refine ⟨by simpa using hdash, hb, ?_, by omega, h⟩
          intro hc
          subst hc
          simpa using hem

/-- The booking branch of `compose` (lines 60-73) produced the reply. -/
def composeBookingHandled (br : Option BookingResult) (language : String) : Bool :=
  match br with
  | some b =>
    (if optTruthy b.message then b.message.getD "" else buildBookingMessage b language) ≠ ""
  | none => false

def ShapeP (language : String) (ep canonUsed bookingHandled : Bool)
    (r : ComposedReply) : Prop :=
  (∃ e, r = ⟨fallbackServicesList language, some e⟩ ∧ e ≠ "") ∨
  r = ⟨"", some "missing_detail"⟩ ∨ r = ⟨"", some "missing_location"⟩ ∨
  (r.error = none ∧ ctaCount r.text ≤ 1 ∧ containsSub r.text "—" = false ∧
   findBannedWord r.text = none ∧ (validateNoSystemLanguage r.text).1 = true ∧
   (canonUsed = false → hasDisallowedEmoji r.text = false) ∧
   (canonUsed = false → bookingHandled = false →
     countPricing r.text ≤ 1 ∧ (ep = false → countPricing r.text = 0)))

theorem compose160_shape (language : String) (ep canonUsed hasYesno : Bool)
    (detail replyText : String) :
    ShapeP language ep canonUsed false
      (compose160 language ep canonUsed hasYesno detail replyText) := by
  unfold compose160 ShapeP
  simp only [validateServiceNameRepetition, ite_self]
  split
  · next h1 =>
    exact Or.inl ⟨_, rfl, str_append3_ne_empty _ _ _ (by decide)⟩
  · next h1 =>
    split
    · exact Or.inl ⟨_, rfl, by decide⟩
    · next h2 =>
      split
      · exact Or.inl ⟨_, rfl, by decide⟩
      · next h3 =>
        split
        · exact Or.inl ⟨_, rfl, by decide⟩
        · next h4 =>
          split
          · exact Or.inl ⟨_, rfl, str_append_ne_empty _ _ (by decide)⟩
          · next h5 =>
            have hv : (validateReply replyText language canonUsed).1 = true := by
              revert h5
              cases (validateReply replyText language canonUsed).1 <;> simp
            obtain ⟨ha, hb, hc, hd, he⟩ := validateReply_elim replyText language canonUsed hv
            refine Or.inr (Or.inr (Or.inr ⟨rfl, hd, ha, hb, he, hc, ?_⟩))
            intro hcanon _
            subst hcanon
            dsimp only
            have h1' : ¬ countPricing replyText > 1 := by simpa using h1
            constructor
            · omega
            · intro hep
              subst hep
              have h2' : ¬ countPricing replyText > 0 := by simpa using h2
              omega

theorem compose141_shape (kb : KB) (language : String) (ga : Bool)
    (yesnoCur : Option String) (detail : String) (il : Bool) (cta : Option String)
    (ep canonUsed : Bool) (blocks : List String) :
    ShapeP language ep canonUsed false
      (compose141 kb language ga yesnoCur detail il cta ep canonUsed blocks) := by
  unfold compose141
  exact compose160_shape language ep canonUsed (optTruthy yesnoCur) detail _

theorem compose131_shape (kb : KB) (intent : String) (resolvedService : Option String)
    (language : String) (ga : Bool) (yesnoCur : Option String) (detail : String)
    (il ep : Bool) (umt canonicalMessage : Option String) (blocks : List String) :
    ShapeP language ep (optTruthy canonicalMessage) false
      (compose131 kb intent resolvedService language ga yesnoCur detail il ep umt
        canonicalMessage blocks) := by
  unfold compose131
  dsimp only
  split_ifs <;>
    first
      | exact Or.inl ⟨_, rfl, str_append_ne_empty _ _ (by decide)⟩
      | exact compose141_shape ..

theorem compose125_shape (kb : KB) (intent : String) (resolvedService : Option String)
    (language : String) (ga : Bool) (yesnoCur : Option String) (detail : String)
    (il ep : Bool) (umt canonicalMessage : Option String) (blocks : List String) :
    ShapeP language ep (optTruthy canonicalMessage) false
      (compose125 kb intent resolvedService language ga yesnoCur detail il ep umt
        canonicalMessage blocks) := by
  unfold compose125
  repeat' split
  all_goals
    first
      | exact Or.inr (Or.inr (Or.inl rfl))
      | exact compose131_shape ..

theorem compose112_shape (kb : KB) (intent : String) (resolvedService : Option String)
    (language : String) (ga : Bool) (yesnoCur : Option String) (detail : String)
    (il ep ie isf : Bool) (umt canonicalMessage : Option String) (blocks : List String) :
    ShapeP language ep (optTruthy canonicalMessage) false
      (compose112 kb intent resolvedService language ga yesnoCur detail il ep ie isf
        umt canonicalMessage blocks) := by
  unfold compose112
  dsimp only
  repeat' split
  all_goals
    first
      | exact Or.inl ⟨_, rfl, str_append_ne_empty _ _ (by decide)⟩
      | exact compose125_shape ..

theorem compose89_shape (kb : KB) (intent : String) (resolvedService : Option String)
    (language : String) (ga : Bool) (yesnoCur : Option String) (il bc ep ie isf : Bool)
    (umt canonicalMessage : Option String) (blocks : List String) :
    ShapeP language ep (optTruthy canonicalMessage) false
      (compose89 kb intent resolvedService language ga yesnoCur il bc ep ie isf umt
        canonicalMessage blocks) := by
  unfold compose89
  dsimp only
  split_ifs <;>
    first
      | exact Or.inr (Or.inl rfl)
      | exact Or.inl ⟨_, rfl, str_append_ne_empty _ _ (by decide)⟩
      | exact compose112_shape ..

theorem compose75_shape (kb : KB) (intent : String) (resolvedService : Option String)
    (language : String) (ga : Bool) (yesnoAnswer : Option String) (il bc ep ie isf : Bool)
    (umt : Option String) (blocks : List String) :
    ShapeP language ep (optTruthy (composeCanonicalMessage kb language umt resolvedService))
      false
      (compose75 kb intent resolvedService language ga yesnoAnswer il bc ep ie isf umt
        blocks) := by
  unfold compose75
  dsimp only
  split_ifs <;>
    first
      | exact Or.inl ⟨_, rfl, str_append_ne_empty _ _ (by decide)⟩
      | exact compose112_shape ..
      | exact compose89_shape ..

theorem compose_shape (kb : KB) (intent : String) (resolvedService : Option String)
    (language : String) (ga : Bool) (yesno : Option String) (il bc ep ie isf : Bool)
    (umt : Option String) (br : Option BookingResult) :
    ShapeP language ep (optTruthy (composeCanonicalMessage kb language umt resolvedService))
      (composeBookingHandled br language)
      (compose kb intent resolvedService language ga yesno il bc ep ie isf umt br) := by
  cases br with
  | none =>
    unfold compose
    dsimp only
    split_ifs <;>
      first
        | exact Or.inl ⟨_, rfl, str_append_ne_empty _ _ (by decide)⟩
        | exact compose75_shape ..
  | some br' =>
    unfold compose
    dsimp only
    by_cases hg : (ga && !(validateGreetingBlock (greeting language)).1) = true
    · rw [if_pos hg]
      exact Or.inl ⟨_, rfl, str_append_ne_empty _ _ (by decide)⟩
    · rw [if_neg hg]
      by_cases hbm :
          (if optTruthy br'.message then br'.message.getD ""
           else buildBookingMessage br' language) ≠ ""
      · rw [if_pos hbm]
        have hbh : composeBookingHandled (some br') language = true := decide_eq_true hbm
        rw [hbh]
        set rt := joinBlocks ((if ga then [greeting language] else []) ++
          [if optTruthy br'.message then br'.message.getD ""
           else buildBookingMessage br' language]) with hrt
        by_cases hval : (!(validateReply rt language false).1) = true
        · rw [if_pos hval]
          exact Or.inl ⟨_, rfl, str_append_ne_empty _ _ (by decide)⟩
        · rw [if_neg hval]
          have hv : (validateReply rt language false).1 = true := by
            revert hval
            cases (validateReply rt language false).1 <;> simp
          obtain ⟨ha, hb, hc, hd, he⟩ := validateReply_elim rt language false hv
          refine Or.inr (Or.inr (Or.inr ⟨rfl, hd, ha, hb, he, fun _ => hc rfl, ?_⟩))
          intro _ habs
          simp at habs
      · rw [if_neg hbm]
        have hbh : composeBookingHandled (some br') language = false := by
          simp only [composeBookingHandled]
          simpa using hbm
        rw [hbh]
        exact compose75_shape ..

set_option maxRecDepth 16384 in
theorem fallback_facts (language : String) :
    ctaCount (fallbackServicesList language) ≤ 1 ∧
    containsSub (fallbackServicesList language) "—" = false ∧
    findBannedWord (fallbackServicesList language) = none ∧
    hasDisallowedEmoji (fallbackServicesList language) = false ∧
    countPricing (fallbackServicesList language) = 0 ∧
    fallbackServicesList language ≠ "" := by
  unfold fallbackServicesList
  split <;> exact ⟨by decide, by decide, by decide, by decide, by decide, by decide⟩

/-! ### C1 — reply content invariants -/

/-- A knowledge base whose canonical service message carries two pricing
lines (the canonical path uses knowledge-base content verbatim). -/
def kbCanonicalPricing : KB :=
  ⟨fun _ => some "pmu", fun _ _ => some ["Pricing: $100", "Pricing: $200"],
   fun _ _ _ => none, fun _ _ => none⟩

set_option maxRecDepth 16384 in
/-- Claim C1 counterexample: with `explicit_price_intent = false` and a
canonical service message containing two pricing substrings, `compose`
returns that text unchanged with no error — the canonical-message path skips
the pricing checks, so the pricing count is 2 (claim says ≤ 1, and 0 without
explicit price intent). -/
theorem reply_invariants_counterexample :
    compose kbCanonicalPricing "greeting" none "en" false none false false false false false
      (some "magic") none = ⟨"Pricing: $100\nPricing: $200", none⟩ ∧
    countPricing "Pricing: $100\nPricing: $200" = 2 := ⟨rfl, rfl⟩

/-- Claim C1 (amended): for any composed reply, the CTA-signature count is
at most 1 and no em-dash or banned word is present; when no canonical service
message is used, no disallowed emoji is present; and when additionally the
reply was not produced by the booking-flow branch, the pricing-substring
count is at most 1 and zero unless `explicit_price_intent` is set.  (The
canonical and booking branches skip the pricing/emoji checks.) -/
theorem reply_invariants_amended (kb : KB) (intent : String)
    (resolvedService : Option String) (language : String) (ga : Bool)
    (yesno : Option String) (il bc ep ie isf : Bool) (umt : Option String)
    (br : Option BookingResult) :
    (ctaCount (compose kb intent resolvedService language ga yesno il bc ep ie isf umt br).text ≤ 1 ∧
     containsSub (compose kb intent resolvedService language ga yesno il bc ep ie isf umt br).text "—" = false ∧
     findBannedWord (compose kb intent resolvedService language ga yesno il bc ep ie isf umt br).text = none) ∧
    (optTruthy (composeCanonicalMessage kb language umt resolvedService) = false →
      hasDisallowedEmoji (compose kb intent resolvedService language ga yesno il bc ep ie isf umt br).text = false) ∧
    (optTruthy (composeCanonicalMessage kb language umt resolvedService) = false →
      composeBookingHandled br language = false →
      countPricing (compose kb intent resolvedService language ga yesno il bc ep ie isf umt br).text ≤ 1 ∧
      (ep = false →
        countPricing (compose kb intent resolvedService language ga yesno il bc ep ie isf umt br).text = 0)) := by
  have h := compose_shape kb intent resolvedService language ga yesno il bc ep ie isf umt br
  unfold ShapeP at h
  obtain ⟨f1, f2, f3, f4, f5, -⟩ := fallback_facts language
  rcases h with ⟨e, heq, -⟩ | heq | heq | ⟨-, hcta, hdash, hband, -, hemoji, hpricing⟩
  · rw [heq]
    dsimp only
    exact ⟨⟨f1, f2, f3⟩, fun _ => f4, fun _ _ => ⟨by omega, fun _ => f5⟩⟩
  · rw [heq]
    dsimp only
    exact ⟨⟨by decide, by decide, by decide⟩, fun _ => by decide,
      fun _ _ => ⟨by decide, fun _ => by decide⟩⟩
  · rw [heq]
    dsimp only
    exact ⟨⟨by decide, by decide, by decide⟩, fun _ => by decide,
      fun _ _ => ⟨by decide, fun _ => by decide⟩⟩
  · exact ⟨⟨hcta, hdash, hband⟩, hemoji, hpricing⟩

/-- An empty knowledge base. -/
def emptyKB : KB := ⟨fun _ => none, fun _ _ => none, fun _ _ _ => none, fun _ _ => none⟩

set_option maxRecDepth 16384 in
/-- Closed instance of the amended C1 theorem (no canonical message, no
booking result, no explicit price intent). -/
theorem reply_invariants_amended_witness :
    (ctaCount (compose emptyKB "hours" none "en" false none false false false false false none none).text ≤ 1 ∧
     containsSub (compose emptyKB "hours" none "en" false none false false false false false none none).text "—" = false ∧
     findBannedWord (compose emptyKB "hours" none "en" false none false false false false false none none).text = none) ∧
    hasDisallowedEmoji (compose emptyKB "hours" none "en" false none false false false false false none none).text = false ∧
    countPricing (compose emptyKB "hours" none "en" false none false false false false false none none).text ≤ 1 ∧
    countPricing (compose emptyKB "hours" none "en" false none false false false false false none none).text = 0 := by
  have h := reply_invariants_amended emptyKB "hours" none "en" false none false false false
    false false none none
  have h3 := h.2.2 (by decide) (by decide)
  exact ⟨h.1, h.2.1 (by decide), h3.1, h3.2 rfl⟩

/-! ### C2 — validator failures and the reply ultimately produced -/

/-- A knowledge base whose services-list template trips the banned-word
validator. -/
def kbBannedTemplate : KB :=
  ⟨fun _ => none, fun _ _ => none,
   fun intent _ _ => if intent = "services_list" then some "We offer love and care" else none,
   fun _ _ => none⟩

set_option maxRecDepth 16384 in
/-- Claim C2 counterexample: a post-assembly validator failure (banned word
in the joined reply) makes the composer substitute the fallback and record
the reason, but `GenerateReplyUseCase.execute` discards the composed text on
any error: the reply ultimately produced for the turn is empty with
`should_handoff = true` — suppressed, not the services-list fallback. -/
theorem validation_failure_counterexample :
    compose kbBannedTemplate "services_list" none "en" false none false false false false false
      none none =
      ⟨fallbackServicesList "en", some "validation_failed_contains_banned_word_love"⟩ ∧
    generateReplyExecute kbBannedTemplate "services_list" none "en" false none false false
      false false false none none =
      ⟨"", true, "validation_failed_contains_banned_word_love"⟩ ∧
    ("" : String) ≠ fallbackServicesList "en" := ⟨rfl, rfl, by decide⟩

/-- Claim C2 (amended): whenever composition records a failure reason, the
composer's own result carries the fixed, non-empty, language-appropriate
services-list fallback text (except the `missing_detail`/`missing_location`
outcomes, which are empty), but the generate-reply stage converts any
recorded failure into `Reply(text="", should_handoff=true, reason)`: the
turn's ultimate reply is suppressed rather than the fallback being sent. -/
theorem validation_failure_amended (kb : KB) (intent : String)
    (resolvedService : Option String) (language : String) (ga : Bool)
    (yesno : Option String) (il bc ep ie isf : Bool) (umt : Option String)
    (br : Option BookingResult) (e : String) :
    ((compose kb intent resolvedService language ga yesno il bc ep ie isf umt br).error = some e →
      e ≠ "missing_detail" → e ≠ "missing_location" →
      (compose kb intent resolvedService language ga yesno il bc ep ie isf umt br).text =
        fallbackServicesList language) ∧
    ((compose kb intent resolvedService language ga yesno il bc ep ie isf umt br).error = some e →
      generateReplyExecute kb intent resolvedService language ga yesno il bc ep ie isf umt br =
        ⟨"", true, e⟩) ∧
    fallbackServicesList language ≠ "" := by
  have h := compose_shape kb intent resolvedService language ga yesno il bc ep ie isf umt br
  unfold ShapeP at h
  have hfne := (fallback_facts language).2.2.2.2.2
  refine ⟨?_, ?_, hfne⟩
  · intro herr h1 h2
    rcases h with ⟨e', heq, -⟩ | heq | heq | ⟨he, -⟩
    · rw [heq]
    · rw [heq] at herr
      simp only [Option.some.injEq] at herr
      exact absurd herr.symm h1
    · rw [heq] at herr
      simp only [Option.some.injEq] at herr
      exact absurd herr.symm h2
    · rw [herr] at he
      simp at he
  · intro herr
    have hene : e ≠ "" := by
      rcases h with ⟨e', heq, hne⟩ | heq | heq | ⟨he, -⟩
      · rw [heq] at herr
        simp only [Option.some.injEq] at herr
        exact herr ▸ hne
      · rw [heq] at herr
        simp only [Option.some.injEq] at herr
        rw [← herr]
        decide
      · rw [heq] at herr
        simp only [Option.some.injEq] at herr
        rw [← herr]
        decide
      · rw [herr] at he
        simp at he
    unfold generateReplyExecute
    dsimp only
    rw [herr]
    simp [optTruthy, hene]

set_option maxRecDepth 16384 in
/-- Closed instance of the amended C2 theorem at the banned-word input. -/
theorem validation_failure_amended_witness :
    (compose kbBannedTemplate "services_list" none "en" false none false false false false false
      none none).text = fallbackServicesList "en" ∧
    generateReplyExecute kbBannedTemplate "services_list" none "en" false none false false
      false false false none none =
      ⟨"", true, "validation_failed_contains_banned_word_love"⟩ ∧
    fallbackServicesList "en" ≠ "" := by
  have h := validation_failure_amended kbBannedTemplate "services_list" none "en" false none
    false false false false false none none "validation_failed_contains_banned_word_love"
  exact ⟨h.1 rfl (by decide) (by decide), h.2.1 rfl, h.2.2⟩

/-! ### C4 — the exact bilingual greeting -/

set_option maxRecDepth 16384 in
/-- Claim C4, evaluated: the English greeting block passes greeting
validation, but `_greeting("es")` returns "Hola, gracias por escribirnos!"
while `_validate_greeting_block` accepts only the exact English string, so
for every knowledge base and every remaining argument, a greeting-applicable
Spanish composition returns the Spanish services-list fallback with a
greeting-validation failure recorded instead of a reply beginning with the
Spanish greeting. -/
theorem greeting_bilingual_validation :
    validateGreetingBlock (greeting "en") = (true, "") ∧
    greeting "es" = "Hola, gracias por escribirnos!" ∧
    (validateGreetingBlock (greeting "es")).1 = false ∧
    ∀ (kb : KB) (intent : String) (resolvedService yesno : Option String)
      (il bc ep ie isf : Bool) (umt : Option String) (br : Option BookingResult),
      compose kb intent resolvedService "es" true yesno il bc ep ie isf umt br =
        ⟨fallbackServicesList "es",
         some "greeting_validation_failed_greeting_must_be_exact_got_'Hola, gracias por escribirnos!'"⟩ := by
  refine ⟨by decide, rfl, by decide, ?_⟩
  intro kb intent resolvedService yesno il bc ep ie isf umt br
  rfl

end FWM
